import Mathlib

/-!
Verification of the chief-assist AI service core against its specification.

This file shallowly embeds the Python source of the service:
  * `app/services/cache_service.py`   — cache operations and cache-key generation,
  * `app/middleware/rate_limit.py`    — the in-memory sliding-window rate limiter,
  * `app/services/gemini_service.py`  — remote generative client with retry/backoff,
  * `app/services/ollama_service.py`  — local generative client with retry/backoff,
  * `app/services/image_service.py`   — image download with retry,
  * `app/services/recognition_service.py` — ingredient extraction and error mapping,
  * `app/services/recipe_service.py`  — recipe extraction and match-percentage.

Machine conventions: Python numbers are modelled as `Rat`/`Int`/`Nat`; Python
exceptions as an explicit `PyExc` error type carried in `Except`; awaited network
calls as per-attempt oracle functions supplied as parameters.
-/

/-- Model of the Python exception classes that the embedded code raises or
inspects.  `jsonDecodeError` models `json.JSONDecodeError`, which in Python is a
subclass of `ValueError` (see `pyIsValueError`). -/
inductive PyExc where
  | timeoutError (msg : String) : PyExc
  | connectionError (msg : String) : PyExc
  | valueError (msg : String) : PyExc
  | jsonDecodeError (msg : String) : PyExc
  | keyError (msg : String) : PyExc
  | typeError (msg : String) : PyExc
  | attributeError (msg : String) : PyExc
  | runtimeError (msg : String) : PyExc
  | httpException (statusCode : Nat) (detail : String) : PyExc
  | otherError (name : String) (msg : String) : PyExc
  deriving DecidableEq, Repr

/-- `str(e)` for a modelled exception: the message it was constructed with. -/
def PyExc.msg : PyExc → String
  | .timeoutError m => m
  | .connectionError m => m
  | .valueError m => m
  | .jsonDecodeError m => m
  | .keyError m => m
  | .typeError m => m
  | .attributeError m => m
  | .runtimeError m => m
  | .httpException _ d => d
  | .otherError _ m => m

/-- Python `isinstance(e, ValueError)`: `json.JSONDecodeError` is a subclass of
`ValueError`. -/
def PyExc.isValueError : PyExc → Bool
  | .valueError _ => true
  | .jsonDecodeError _ => true
  | _ => false

/-- The opening-brace character, `Char.ofNat 123`. -/
def lbraceChar : Char := Char.ofNat 123

/-- The closing-brace character, `Char.ofNat 125`. -/
def rbraceChar : Char := Char.ofNat 125

/-- Model of a Python value decoded from JSON (`json.loads` output): `None`,
`bool`, numbers (modelled as rationals), `str`, `list`, `dict`. -/
inductive Json where
  | null : Json
  | bool (b : Bool) : Json
  | num (q : Rat) : Json
  | str (s : String) : Json
  | arr (xs : List Json) : Json
  | obj (fields : List (String × Json)) : Json

/-- Python `dict` lookup for a JSON object: with duplicate keys in the source
text, the last occurrence wins (later assignments overwrite earlier ones). -/
def jsonObjFind : List (String × Json) → String → Option Json
  | [], _ => none
  | (k, v) :: fs, key =>
    match jsonObjFind fs key with
    | some w => some w
    | none => if k = key then some v else none

/-- Python `d.get(key, default)` for an object value; any non-`dict` value has
no `.get` method, so the call raises `AttributeError`. -/
def pyGet (item : Json) (key : String) (default : Json) : Except PyExc Json :=
  match item with
  | .obj fs =>
    match jsonObjFind fs key with
    | some v => .ok v
    | none => .ok default
  | _ => .error (.attributeError "object has no attribute get")

/-- Python truthiness of a decoded JSON value (`if x:`). -/
def pyTruthy : Json → Bool
  | .null => false
  | .bool b => b
  | .num q => decide (q ≠ 0)
  | .str s => decide (s ≠ "")
  | .arr xs => !xs.isEmpty
  | .obj fs => !fs.isEmpty

/-- Python `len(x)` for a decoded JSON value; numbers, booleans and `None` have
no length, so `len` raises `TypeError`. -/
def pyLen : Json → Except PyExc Nat
  | .str s => .ok s.length
  | .arr xs => .ok xs.length
  | .obj fs => .ok fs.length
  | _ => .error (.typeError "object has no len")

/-- Python `for item in x`: lists yield their elements, dicts their keys,
strings their one-character substrings; other values are not iterable
(`TypeError`). -/
def pyIter : Json → Except PyExc (List Json)
  | .arr xs => .ok xs
  | .obj fs => .ok (fs.map (fun p => .str p.1))
  | .str s => .ok (s.toList.map (fun c => .str (String.mk [c])))
  | _ => .error (.typeError "object is not iterable")

/-- Python `key in x` (membership test) for a decoded JSON value: key lookup in
a dict, element membership in a list, substring test in a string. -/
def pyContains (x : Json) (key : String) : Except PyExc Bool :=
  match x with
  | .obj fs => .ok ((jsonObjFind fs key).isSome)
  | .arr xs => .ok (xs.any (fun v => match v with | .str s => s = key | _ => false))
  | .str s => .ok (decide (key.toList <:+: s.toList))
  | _ => .error (.typeError "argument is not a container")

/-- Python `x[key]` subscript on a decoded JSON value (dict indexing). -/
def pySubscript (x : Json) (key : String) : Except PyExc Json :=
  match x with
  | .obj fs =>
    match jsonObjFind fs key with
    | some v => .ok v
    | none => .error (.keyError key)
  | _ => .error (.typeError "object is not subscriptable")

/-- Python `float(x)` on a decoded JSON value: numbers pass through, booleans
become 0/1, numeric strings are parsed (`ValueError` otherwise), `None` and
containers raise `TypeError`. -/
def pyFloatOfChars (cs : List Char) : Option Rat :=
  let (sign, cs) : Rat × List Char :=
    match cs with
    | '-' :: rest => (-1, rest)
    | '+' :: rest => (1, rest)
    | _ => (1, cs)
  let intPart := cs.takeWhile Char.isDigit
  let rest := cs.dropWhile Char.isDigit
  let (fracPart, rest) : List Char × List Char :=
    match rest with
    | '.' :: r => (r.takeWhile Char.isDigit, r.dropWhile Char.isDigit)
    | _ => ([], rest)
  if intPart.isEmpty ∧ fracPart.isEmpty then none
  else if ¬ rest.isEmpty then none
  else
    let iv : Nat := intPart.foldl (fun a c => a * 10 + (c.toNat - 48)) 0
    let fv : Nat := fracPart.foldl (fun a c => a * 10 + (c.toNat - 48)) 0
    some (sign * ((iv : Rat) + (fv : Rat) / ((10 : Rat) ^ fracPart.length)))

def pyFloat : Json → Except PyExc Rat
  | .num q => .ok q
  | .bool b => .ok (if b then 1 else 0)
  | .str s =>
    match pyFloatOfChars s.trim.toList with
    | some q => .ok q
    | none => .error (.valueError ("could not convert string to float: " ++ s))
  | .null => .error (.typeError "float argument must not be None")
  | _ => .error (.typeError "float argument must be a string or a number")

/-- JSON whitespace skipping (`json.loads` tolerates blanks around tokens). -/
def skipWs (cs : List Char) : List Char :=
  cs.dropWhile (fun c => c = ' ' ∨ c = '\n' ∨ c = '\t' ∨ c = '\r')

/-- Parse the body of a JSON string literal after the opening quote, handling
the standard escapes; returns the decoded text and the remaining input. -/
def jsonEscapeChar : Char → Option Char
  | '"' => some '"'
  | '\\' => some '\\'
  | '/' => some '/'
  | 'b' => some (Char.ofNat 8)
  | 'f' => some (Char.ofNat 12)
  | 'n' => some '\n'
  | 'r' => some '\r'
  | 't' => some '\t'
  | _ => none

def jsonHexVal (c : Char) : Option Nat :=
  if c.isDigit then some (c.toNat - 48)
  else if 'a' ≤ c ∧ c ≤ 'f' then some (c.toNat - 87)
  else if 'A' ≤ c ∧ c ≤ 'F' then some (c.toNat - 55)
  else none

def parseJsonStringBody : List Char → Option (String × List Char)
  | [] => none
  | '"' :: rest => some ("", rest)
  | '\\' :: 'u' :: h1 :: h2 :: h3 :: h4 :: rest =>
    (match jsonHexVal h1, jsonHexVal h2, jsonHexVal h3, jsonHexVal h4 with
     | some a, some b, some c, some d =>
       (match parseJsonStringBody rest with
        | some (s, rem) => some (String.mk (Char.ofNat (((a * 16 + b) * 16 + c) * 16 + d) :: s.toList), rem)
        | none => none)
     | _, _, _, _ => none)
  | '\\' :: e :: rest =>
    (match jsonEscapeChar e with
     | some c =>
       (match parseJsonStringBody rest with
        | some (s, rem) => some (String.mk (c :: s.toList), rem)
        | none => none)
     | none => none)
  | c :: rest =>
    if c.toNat < 32 then none
    else
      match parseJsonStringBody rest with
      | some (s, rem) => some (String.mk (c :: s.toList), rem)
      | none => none
termination_by cs => cs.length
decreasing_by all_goals simp_arith [*]

/-- Parse a JSON number token (strict grammar: no leading zeros, optional
fraction and exponent), returning its rational value and the rest. -/
def parseJsonNumber (cs : List Char) : Option (Rat × List Char) :=
  let (sign, cs1) : Rat × List Char :=
    match cs with
    | '-' :: rest => (-1, rest)
    | _ => (1, cs)
  let intPart := cs1.takeWhile Char.isDigit
  let rest1 := cs1.dropWhile Char.isDigit
  if intPart.isEmpty then none
  else if 1 < intPart.length ∧ intPart.headD '0' = '0' then none
  else
    let (fracPart, rest2) : List Char × List Char :=
      match rest1 with
      | '.' :: r => (r.takeWhile Char.isDigit, r.dropWhile Char.isDigit)
      | _ => ([], rest1)
    if (match rest1 with | '.' :: _ => fracPart.isEmpty | _ => False) then none
    else
      let (expVal, rest3) : Option Int × List Char :=
        match rest2 with
        | 'e' :: r | 'E' :: r =>
          let (esign, r1) : Int × List Char :=
            match r with
            | '-' :: rr => (-1, rr)
            | '+' :: rr => (1, rr)
            | _ => (1, r)
          let eDigits := r1.takeWhile Char.isDigit
          if eDigits.isEmpty then (none, r1)
          else (some (esign * (eDigits.foldl (fun a c => a * 10 + (c.toNat - 48)) 0 : Nat)), r1.dropWhile Char.isDigit)
        | _ => (some 0, rest2)
      match expVal with
      | none => none
      | some e =>
        let iv : Nat := intPart.foldl (fun a c => a * 10 + (c.toNat - 48)) 0
        let fv : Nat := fracPart.foldl (fun a c => a * 10 + (c.toNat - 48)) 0
        let base : Rat := (iv : Rat) + (fv : Rat) / ((10 : Rat) ^ fracPart.length)
        let scaled : Rat := if 0 ≤ e then base * (10 : Rat) ^ e.toNat else base / ((10 : Rat) ^ (-e).toNat)
        some (sign * scaled, rest3)

mutual
/-- Fuel-bounded recursive-descent parser for a JSON value (model of the
decoder behind `json.loads`); returns the value and the unconsumed input. -/
def parseJsonVal : Nat → List Char → Option (Json × List Char)
  | 0, _ => none
  | fuel + 1, cs =>
    match skipWs cs with
    | 'n' :: 'u' :: 'l' :: 'l' :: rest => some (.null, rest)
    | 't' :: 'r' :: 'u' :: 'e' :: rest => some (.bool true, rest)
    | 'f' :: 'a' :: 'l' :: 's' :: 'e' :: rest => some (.bool false, rest)
    | '"' :: rest =>
      match parseJsonStringBody rest with
      | some (s, rem) => some (.str s, rem)
      | none => none
    | '[' :: rest =>
      (match skipWs rest with
       | ']' :: rem => some (.arr [], rem)
       | _ =>
         match parseJsonArrayItems fuel (skipWs rest) with
         | some (xs, rem) => some (.arr xs, rem)
         | none => none)
    | c :: rest =>
      if c = lbraceChar then
        (match skipWs rest with
         | d :: rem =>
           if d = rbraceChar then some (.obj [], rem)
           else
             match parseJsonObjFields fuel (skipWs rest) with
             | some (fs, rem') => some (.obj fs, rem')
             | none => none
         | [] => none)
      else
        match parseJsonNumber (c :: rest) with
        | some (q, rem) => some (.num q, rem)
        | none => none
    | [] => none

/-- Parse one-or-more comma-separated array items up to the closing bracket. -/
def parseJsonArrayItems : Nat → List Char → Option (List Json × List Char)
  | 0, _ => none
  | fuel + 1, cs =>
    match parseJsonVal fuel cs with
    | none => none
    | some (v, rest) =>
      match skipWs rest with
      | ',' :: rem =>
        (match parseJsonArrayItems fuel (skipWs rem) with
         | some (xs, rem') => some (v :: xs, rem')
         | none => none)
      | ']' :: rem => some ([v], rem)
      | _ => none

/-- Parse one-or-more comma-separated `"key": value` fields up to the closing
brace. -/
def parseJsonObjFields : Nat → List Char → Option (List (String × Json) × List Char)
  | 0, _ => none
  | fuel + 1, cs =>
    match skipWs cs with
    | '"' :: rest =>
      (match parseJsonStringBody rest with
       | none => none
       | some (k, rem) =>
         match skipWs rem with
         | ':' :: rem2 =>
           (match parseJsonVal fuel (skipWs rem2) with
            | none => none
            | some (v, rest2) =>
              match skipWs rest2 with
              | ',' :: rem3 =>
                (match parseJsonObjFields fuel (skipWs rem3) with
                 | some (fs, rem4) => some ((k, v) :: fs, rem4)
                 | none => none)
              | e :: rem3 =>
                if e = rbraceChar then some ([(k, v)], rem3) else none
              | [] => none)
         | _ => none)
    | _ => none
end

/-- Model of `json.loads`: parse the whole text as one JSON value, allowing
only whitespace around it; failure raises `json.JSONDecodeError`. -/
def jsonLoads (s : String) : Except PyExc Json :=
  match parseJsonVal (2 * s.length + 8) s.toList with
  | some (v, rest) =>
    if (skipWs rest).isEmpty then .ok v
    else .error (.jsonDecodeError "Extra data")
  | none => .error (.jsonDecodeError "Expecting value")

mutual
/-- Model of `json.dumps` restricted to decoded JSON values (with
`default=str` it cannot fail on these). -/
def jsonDumps : Json → String
  | .null => "null"
  | .bool b => if b then "true" else "false"
  | .num q => toString q
  | .str s => "\"" ++ s ++ "\""
  | .arr xs => "[" ++ ", ".intercalate (jsonDumpsList xs) ++ "]"
  | .obj fs => String.mk [lbraceChar] ++ ", ".intercalate (jsonDumpsObj fs) ++ String.mk [rbraceChar]

def jsonDumpsList : List Json → List String
  | [] => []
  | x :: xs => jsonDumps x :: jsonDumpsList xs

def jsonDumpsObj : List (String × Json) → List String
  | [] => []
  | (k, v) :: fs => ("\"" ++ k ++ "\": " ++ jsonDumps v) :: jsonDumpsObj fs
end

/-- Python `try: body except Exception: handler` over the embedded exception
monad: a raised exception is passed to the handler, a normal result passes
through. -/
def pyTry {α : Type} (body : Except PyExc α) (handler : PyExc → Except PyExc α) : Except PyExc α :=
  match body with
  | .ok a => .ok a
  | .error e => handler e

/-!
## Cache service (`app/services/cache_service.py`)
-/

/-- Oracle model of the `redis.asyncio` client used by `CacheService`: one
response function per operation (`get`/`setex`/`delete`/`exists`), each of
which may raise. -/
structure RedisClient where
  getResp : String → Except PyExc (Option String)
  setexResp : String → Nat → String → Except PyExc Unit
  delResp : String → Except PyExc Unit
  existsResp : String → Except PyExc Nat

/-- `CacheService.get` (cache_service.py lines 47-67): `None` when disabled or
on any backend/parse error, the decoded value otherwise.  An empty-string reply
is falsy in Python and is returned as `None`. -/
def cacheGet (enabled : Bool) (client : Option RedisClient) (key : String) : Except PyExc (Option Json) :=
  if ¬ enabled ∨ client.isNone then .ok none
  else
    match client with
    | none => .ok none
    | some c =>
      pyTry
        (do
          let value ← c.getResp key
          match value with
          | some v =>
            if v ≠ "" then do
              let j ← jsonLoads v
              pure (some j)
            else pure none
          | none => pure none)
        (fun _e => .ok none)

/-- `CacheService.set` (cache_service.py lines 69-90): serialize and `SETEX`;
`false` when disabled or on any backend error. -/
def cacheSet (enabled : Bool) (client : Option RedisClient) (key : String) (value : Json) (ttl : Nat) : Except PyExc Bool :=
  if ¬ enabled ∨ client.isNone then .ok false
  else
    match client with
    | none => .ok false
    | some c =>
      pyTry
        (do
          let serialized := jsonDumps value
          let _ ← c.setexResp key ttl serialized
          pure true)
        (fun _e => .ok false)

/-- `CacheService.delete` (cache_service.py lines 92-110). -/
def cacheDelete (enabled : Bool) (client : Option RedisClient) (key : String) : Except PyExc Bool :=
  if ¬ enabled ∨ client.isNone then .ok false
  else
    match client with
    | none => .ok false
    | some c =>
      pyTry
        (do
          let _ ← c.delResp key
          pure true)
        (fun _e => .ok false)

/-- `CacheService.exists` (cache_service.py lines 112-129): `EXISTS` count
compared with 0; `false` when disabled or on any backend error. -/
def cacheExists (enabled : Bool) (client : Option RedisClient) (key : String) : Except PyExc Bool :=
  if ¬ enabled ∨ client.isNone then .ok false
  else
    match client with
    | none => .ok false
    | some c =>
      pyTry
        (do
          let n ← c.existsResp key
          pure (decide (0 < n)))
        (fun _e => .ok false)

/-!
## Cache-key generation (`CacheService.generate_key`, cache_service.py lines 140-183)
-/

/-- Modelled from the library call `hashlib.md5(text.encode()).hexdigest()`'s
numeric digest: a deterministic 128-bit value of the text.  The claims verified
here depend only on the digest being a deterministic function of its input that
is rendered as 32 lowercase hex characters, never on the MD5 compression
function itself, so a 128-bit polynomial digest stands in for it. -/
def digest128 (s : String) : Nat :=
  s.toList.foldl (fun a c => (a * 65599 + c.toNat + 1) % 2 ^ 128) 144066263297769815596495629667062367629

/-- Lowercase hexadecimal digit characters. -/
def hexChar (n : Nat) : Char := "0123456789abcdef".toList.getD n '0'

/-- Model of `hashlib.md5(text.encode()).hexdigest()`: the 128-bit digest
rendered as exactly 32 lowercase hexadecimal characters. -/
def md5Hex (s : String) : String :=
  String.mk ((List.range 32).map (fun i => hexChar (digest128 s / 16 ^ (31 - i) % 16)))

/-- Model of the Python argument values passed to `generate_key`: the scalar
kinds its `isinstance` checks single out (`str`, `int`, `bool`), lists, and
any other ("complex") object identified by its `str()` rendering. -/
inductive PyVal where
  | pstr (s : String) : PyVal
  | pint (n : Int) : PyVal
  | pbool (b : Bool) : PyVal
  | plist (xs : List PyVal) : PyVal
  | pother (r : String) : PyVal

mutual
/-- Python `repr` of a `PyVal` (used by `str` for elements inside a list). -/
def pyRepr : PyVal → String
  | .pstr s => "'" ++ s ++ "'"
  | .pint n => toString n
  | .pbool b => if b then "True" else "False"
  | .plist xs => "[" ++ ", ".intercalate (pyReprList xs) ++ "]"
  | .pother r => r

def pyReprList : List PyVal → List String
  | [] => []
  | x :: xs => pyRepr x :: pyReprList xs
end

/-- Python `str` of a `PyVal`: like `repr` but a top-level string is rendered
without quotes. -/
def pyStr : PyVal → String
  | .pstr s => s
  | v => pyRepr v

/-- Python `sorted` on a list of strings (lexicographic by code point). -/
def sortStrings (l : List String) : List String :=
  l.mergeSort (fun a b => decide (a ≤ b))

/-- The key part contributed by one positional argument (cache_service.py
lines 157-165): scalars are stringified, list elements are stringified,
sorted and comma-joined, complex objects become the first 8 hex characters of
their content hash. -/
def keyPartOfArg (arg : PyVal) : String :=
  match arg with
  | .pstr s => s
  | .pint n => toString n
  | .pbool b => if b then "True" else "False"
  | .plist xs => ",".intercalate (sortStrings (xs.map pyStr))
  | .pother r => (md5Hex r).take 8

/-- The key part contributed by one keyword argument (cache_service.py lines
168-176): `name:value` with the same scalar/list/complex value rendering. -/
def keyPartOfKwarg (k : String) (v : PyVal) : String :=
  match v with
  | .pstr s => k ++ ":" ++ s
  | .pint n => k ++ ":" ++ toString n
  | .pbool b => k ++ ":" ++ (if b then "True" else "False")
  | .plist xs => k ++ ":" ++ ",".intercalate (sortStrings (xs.map pyStr))
  | .pother r => k ++ ":" ++ (md5Hex r).take 8

/-- `sorted(kwargs.items())` under the Python-dict guarantee of pairwise
distinct keys: sorting the pairs by key (tuple comparison never reaches the
values when the first components differ). -/
def sortKwargs (kwargs : List (String × PyVal)) : List (String × PyVal) :=
  kwargs.mergeSort (fun p q => decide (p.1 ≤ q.1))

/-- The raw joined key of `generate_key` before the length bound is applied
(cache_service.py lines 154-179): the namespace, then the positional parts,
then — when keyword arguments are present — the sorted keyword parts, joined
with `:`.  The parameter `ns` models the Python parameter named after the key
namespace ("prefix" in the source). -/
def rawCacheKey (ns : String) (args : List PyVal) (kwargs : List (String × PyVal)) : String :=
  let keyParts := ns :: args.map keyPartOfArg
  let keyParts := keyParts ++
    (if kwargs.isEmpty then [] else (sortKwargs kwargs).map (fun p => keyPartOfKwarg p.1 p.2))
  ":".intercalate keyParts

/-- `CacheService.generate_key` (cache_service.py lines 140-183): the raw
joined key, replaced by `ns:<content hash>` when it exceeds 250 characters
(the key-value store key-length limit). -/
def generate_key (ns : String) (args : List PyVal) (kwargs : List (String × PyVal)) : String :=
  let key := rawCacheKey ns args kwargs
  if 250 < key.length then ns ++ ":" ++ md5Hex key else key

/-- A lowercase hexadecimal digit. -/
def isHexDigitChar (c : Char) : Bool :=
  c.isDigit || ('a' ≤ c && c ≤ 'f')

/-- Logical equivalence of two `generate_key` argument values in the sense of
the specification: scalars and complex objects are equal, list arguments hold
the same multiset of elements. -/
def argEquiv : PyVal → PyVal → Prop
  | .pstr a, .pstr b => a = b
  | .pint a, .pint b => a = b
  | .pbool a, .pbool b => a = b
  | .plist xs, .plist ys => xs.Perm ys
  | .pother a, .pother b => a = b
  | _, _ => False

/-- The sort key and rendered value part of one keyword argument. -/
def kwKeyed (p : String × PyVal) : String × String := (p.1, keyPartOfArg p.2)

/-- Logical equivalence of two keyword arguments: same name, equivalent
value. -/
def kwargEquiv (p q : String × PyVal) : Prop :=
  p.1 = q.1 ∧ argEquiv p.2 q.2

/-- A cache backend whose every operation raises (used to witness the
degradation guarantee). -/
def failingRedisClient : RedisClient where
  getResp := fun _ => .error (.connectionError "Connection refused")
  setexResp := fun _ _ _ => .error (.connectionError "Connection refused")
  delResp := fun _ => .error (.connectionError "Connection refused")
  existsResp := fun _ => .error (.connectionError "Connection refused")

/-!
## Rate limiter (`app/middleware/rate_limit.py`), in-memory backend
-/

/-- The in-memory rate-limiter state: `self.requests`, a `defaultdict(list)`
from client identity to the list of recorded request timestamps.  Time is
modelled in seconds as an integer (the code compares `datetime` differences
against `timedelta` windows; only ordering and subtraction are used). -/
def RateState : Type := String → List Int

/-- `RateLimitMiddleware._is_rate_limited_memory` (rate_limit.py lines
104-121).  The check first prunes entries older than one hour in place
(`requests[:] = ...`), then compares the last-minute count and the full
within-hour count against the two thresholds; it returns the verdict and the
mutated state. -/
def isRateLimitedMemory (perMinute perHour : Nat) (st : RateState) (clientId : String) (now : Int) :
    Bool × RateState :=
  let requests := st clientId
  let pruned := requests.filter (fun reqTime => decide (now - reqTime < 3600))
  let st' : RateState := fun c => if c = clientId then pruned else st c
  let recentMinute := pruned.filter (fun reqTime => decide (now - reqTime < 60))
  if perMinute ≤ recentMinute.length then (true, st')
  else if perHour ≤ pruned.length then (true, st')
  else (false, st')

/-- `RateLimitMiddleware._record_request_memory` (rate_limit.py lines
148-150): append the current timestamp to the client's log. -/
def recordRequestMemory (st : RateState) (clientId : String) (now : Int) : RateState :=
  fun c => if c = clientId then st clientId ++ [now] else st c

/-- `RateLimitMiddleware.dispatch` (rate_limit.py lines 41-62) on a
non-exempt path with the in-memory backend: check first; a rejected request
raises HTTP 429 before the recording step, an admitted one is recorded.
Returns `(admitted, new state)`. -/
def dispatchMemory (perMinute perHour : Nat) (st : RateState) (clientId : String) (now : Int) :
    Bool × RateState :=
  let checked := isRateLimitedMemory perMinute perHour st clientId now
  if checked.1 then (false, checked.2)
  else (true, recordRequestMemory checked.2 clientId now)

/-- Sequential processing of one request per timestamp for a fixed client
against `dispatchMemory`; returns whether every request was admitted, and the
final state. -/
def processAll (perMinute perHour : Nat) (st : RateState) (clientId : String) :
    List Int → Bool × RateState
  | [] => (true, st)
  | t :: ts =>
    let step := dispatchMemory perMinute perHour st clientId t
    let rest := processAll perMinute perHour step.2 clientId ts
    (step.1 && rest.1, rest.2)

/-!
## Generative clients (`gemini_service.py`, `ollama_service.py`)

An awaited generation call is modelled by a per-attempt oracle: attempt `i`
either returns a response, times out (`asyncio.TimeoutError` from
`asyncio.wait_for`), or raises an exception.
-/

/-- Python `substring in text` on strings. -/
def strContains (hay needle : String) : Bool :=
  decide (needle.toList <:+: hay.toList)

/-- Python `text.lower()` (character-wise lowering; the messages inspected
here are ASCII). -/
def pyLower (s : String) : String :=
  String.mk (s.toList.map Char.toLower)

/-- `any(keyword in error_msg for keyword in [...])` where
`error_msg = str(e).lower()`. -/
def isRetryableMsg (keywords : List String) (msg : String) : Bool :=
  keywords.any (fun k => strContains (pyLower msg) k)

/-- The retryable-error keywords of `GeminiService.generate_text`
(gemini_service.py line 80). -/
def geminiTextKeywords : List String :=
  ["timeout", "unavailable", "connection", "network", "503", "502"]

/-- The retryable-error keywords of `GeminiService.generate_with_image`
(gemini_service.py line 140). -/
def geminiImageKeywords : List String :=
  ["timeout", "unavailable", "connection", "network", "503", "502", "failed to connect"]

/-- The retryable-error keywords of `OllamaService.generate_with_image`
(ollama_service.py line 260). -/
def ollamaImageKeywords : List String :=
  ["timeout", "unavailable", "connection", "network", "503", "502", "failed to connect"]

/-- Outcome of one awaited Gemini generation attempt: a returned response
(whose `.text` may be empty, which is falsy), an `asyncio.TimeoutError`, or
any other raised exception. -/
inductive GenAttempt where
  | response (text : String) : GenAttempt
  | timeout : GenAttempt
  | exc (e : PyExc) : GenAttempt

/-- One run of a retrying text-generation call: the final result (`.ok none`
models Python falling off the loop and returning `None`, possible only when
the configured attempt budget is 0), the number of attempts performed, and
the backoff sleeps awaited between attempts, in order. -/
structure GenRun where
  result : Except PyExc (Option String)
  attempts : Nat
  sleeps : List Nat

/-- The retry loop of `GeminiService.generate_text` (gemini_service.py lines
54-88), recursing on the remaining attempt budget with `attempt` the current
0-based index: an empty response raises `ValueError` inside the `try` and is
dispatched — like any other exception — by the keyword test; timeouts and
keyword-retryable errors back off `2 ^ attempt` and retry, the last attempt
re-raising as the timeout-class or connection-class error; anything else
propagates at once. -/
def geminiTextAux (backend : Nat → GenAttempt) (maxRetries : Nat) : Nat → Nat → GenRun
  | _attempt, 0 => ⟨.ok none, 0, []⟩
  | attempt, fuel + 1 =>
    match backend attempt with
    | .timeout =>
      if attempt = maxRetries - 1 then
        ⟨.error (.timeoutError "Gemini API request timed out"), 1, []⟩
      else
        let rest := geminiTextAux backend maxRetries (attempt + 1) fuel
        ⟨rest.result, rest.attempts + 1, 2 ^ attempt :: rest.sleeps⟩
    | .response t =>
      if t ≠ "" then ⟨.ok (some t), 1, []⟩
      else
        if isRetryableMsg geminiTextKeywords (PyExc.valueError "Empty response from Gemini AI").msg then
          (if attempt = maxRetries - 1 then
            ⟨.error (.connectionError "Failed to connect to Gemini API"), 1, []⟩
          else
            let rest := geminiTextAux backend maxRetries (attempt + 1) fuel
            ⟨rest.result, rest.attempts + 1, 2 ^ attempt :: rest.sleeps⟩)
        else ⟨.error (.valueError "Empty response from Gemini AI"), 1, []⟩
    | .exc e =>
      if isRetryableMsg geminiTextKeywords e.msg then
        (if attempt = maxRetries - 1 then
          ⟨.error (.connectionError "Failed to connect to Gemini API"), 1, []⟩
        else
          let rest := geminiTextAux backend maxRetries (attempt + 1) fuel
          ⟨rest.result, rest.attempts + 1, 2 ^ attempt :: rest.sleeps⟩)
      else ⟨.error e, 1, []⟩

/-- `GeminiService.generate_text` (gemini_service.py lines 37-88):
configuration failure raises `RuntimeError` before any attempt; otherwise the
retry loop runs with the configured budget. -/
def geminiGenerateText (available : Bool) (backend : Nat → GenAttempt) (maxRetries : Nat) : GenRun :=
  if ¬ available then ⟨.error (.runtimeError "Gemini AI is not available. Check API key configuration."), 0, []⟩
  else geminiTextAux backend maxRetries 0 maxRetries

/-- The retry loop of `GeminiService.generate_with_image` (gemini_service.py
lines 108-148): identical shape to the text loop, with the extended keyword
list and image-specific messages; the in-`try` image decoding is covered by
the attempt oracle's `exc` case. -/
def geminiImageAux (backend : Nat → GenAttempt) (maxRetries : Nat) : Nat → Nat → GenRun
  | _attempt, 0 => ⟨.ok none, 0, []⟩
  | attempt, fuel + 1 =>
    match backend attempt with
    | .timeout =>
      if attempt = maxRetries - 1 then
        ⟨.error (.timeoutError "Gemini API request with image timed out"), 1, []⟩
      else
        let rest := geminiImageAux backend maxRetries (attempt + 1) fuel
        ⟨rest.result, rest.attempts + 1, 2 ^ attempt :: rest.sleeps⟩
    | .response t =>
      if t ≠ "" then ⟨.ok (some t), 1, []⟩
      else
        if isRetryableMsg geminiImageKeywords (PyExc.valueError "Empty response from Gemini AI").msg then
          (if attempt = maxRetries - 1 then
            ⟨.error (.connectionError "Failed to connect to Gemini API"), 1, []⟩
          else
            let rest := geminiImageAux backend maxRetries (attempt + 1) fuel
            ⟨rest.result, rest.attempts + 1, 2 ^ attempt :: rest.sleeps⟩)
        else ⟨.error (.valueError "Empty response from Gemini AI"), 1, []⟩
    | .exc e =>
      if isRetryableMsg geminiImageKeywords e.msg then
        (if attempt = maxRetries - 1 then
          ⟨.error (.connectionError "Failed to connect to Gemini API"), 1, []⟩
        else
          let rest := geminiImageAux backend maxRetries (attempt + 1) fuel
          ⟨rest.result, rest.attempts + 1, 2 ^ attempt :: rest.sleeps⟩)
      else ⟨.error e, 1, []⟩

/-- `GeminiService.generate_with_image` (gemini_service.py lines 90-148). -/
def geminiGenerateWithImage (available : Bool) (backend : Nat → GenAttempt) (maxRetries : Nat) : GenRun :=
  if ¬ available then ⟨.error (.runtimeError "Gemini AI is not available. Check API key configuration."), 0, []⟩
  else geminiImageAux backend maxRetries 0 maxRetries

/-- Outcome of one awaited Ollama `/api/generate` attempt: a 2xx response
with decoded JSON body, an `asyncio.TimeoutError`, an HTTP error status
(raised by `raise_for_status` as `httpx.HTTPStatusError`), a connection
refusal, an `httpx` timeout, another `httpx.RequestError`, or any other
exception (including a body that fails to decode as JSON). -/
inductive OllamaTextAttempt where
  | ok (data : Json) : OllamaTextAttempt
  | asyncTimeout : OllamaTextAttempt
  | httpStatusError (status : Nat) (body : String) : OllamaTextAttempt
  | connectError (msg : String) : OllamaTextAttempt
  | httpTimeout (msg : String) : OllamaTextAttempt
  | requestError (name : String) (msg : String) : OllamaTextAttempt
  | exc (e : PyExc) : OllamaTextAttempt

/-- Response-field extraction of `OllamaService.generate_text`
(ollama_service.py lines 136-147): `response`, then `message.content`, then
`text`, else `ValueError`. -/
def ollamaExtractResponse (data : Json) : Except PyExc Json := do
  let hasResponse ← pyContains data "response"
  if hasResponse then pySubscript data "response"
  else do
    let hasMessage ← pyContains data "message"
    let hasContent ←
      if hasMessage then do
        let m ← pySubscript data "message"
        pyContains m "content"
      else pure false
    if hasContent then do
      let m ← pySubscript data "message"
      pySubscript m "content"
    else do
      let hasText ← pyContains data "text"
      if hasText then pySubscript data "text"
      else .error (.valueError "Unexpected response format from Ollama")

/-- The failure cases of one `OllamaService.generate_text` attempt body,
matching that function's `except` clauses in order (ollama_service.py lines
149-193); `generic` covers the final `except Exception`, including
exceptions raised by the in-`try` field extraction. -/
inductive OllamaBodyErr where
  | asyncTimeout : OllamaBodyErr
  | status (status : Nat) (body : String) : OllamaBodyErr
  | connect (msg : String) : OllamaBodyErr
  | httpTimeoutE (msg : String) : OllamaBodyErr
  | request (name : String) (msg : String) : OllamaBodyErr
  | generic (e : PyExc) : OllamaBodyErr

/-- One attempt body of `OllamaService.generate_text` (ollama_service.py
lines 98-147): the connection pre-check on attempt 0 is advisory only (its
failure is logged and the request attempted anyway), so it does not appear in
the outcome. -/
def ollamaTextBody (backend : Nat → OllamaTextAttempt) (attempt : Nat) : Except OllamaBodyErr Json :=
  match backend attempt with
  | .ok data =>
    (match ollamaExtractResponse data with
     | .ok v => .ok v
     | .error e => .error (.generic e))
  | .asyncTimeout => .error .asyncTimeout
  | .httpStatusError s b => .error (.status s b)
  | .connectError m => .error (.connect m)
  | .httpTimeout m => .error (.httpTimeoutE m)
  | .requestError n m => .error (.request n m)
  | .exc e => .error (.generic e)

/-- The error each `except` clause of `OllamaService.generate_text` raises
once the attempt budget is exhausted (ollama_service.py lines 149-193). -/
def ollamaTextFinalError : OllamaBodyErr → PyExc
  | .asyncTimeout => .timeoutError "Ollama API request timed out"
  | .status s _b => .valueError ("Ollama API returned error: HTTP " ++ toString s)
  | .connect _m => .connectionError "Cannot connect to Ollama. Is Ollama running?"
  | .httpTimeoutE _m => .timeoutError "Request to Ollama timed out"
  | .request n _m => .connectionError ("Failed to connect to Ollama API: " ++ n)
  | .generic e => .runtimeError ("Ollama text generation failed: " ++ e.msg)

/-- One run of `OllamaService.generate_text`: result, attempts performed,
and backoff sleeps in order. -/
structure OllamaRun where
  result : Except PyExc (Option Json)
  attempts : Nat
  sleeps : List Nat

/-- The retry loop of `OllamaService.generate_text` (ollama_service.py lines
97-193): every one of its `except` clauses — including HTTP status errors
and the final generic `except Exception` — sleeps `2 ^ attempt` and retries,
and only the last attempt re-raises (re-classed by `ollamaTextFinalError`). -/
def ollamaTextAux (backend : Nat → OllamaTextAttempt) (maxRetries : Nat) : Nat → Nat → OllamaRun
  | _attempt, 0 => ⟨.ok none, 0, []⟩
  | attempt, fuel + 1 =>
    match ollamaTextBody backend attempt with
    | .ok v => ⟨.ok (some v), 1, []⟩
    | .error berr =>
      if attempt = maxRetries - 1 then ⟨.error (ollamaTextFinalError berr), 1, []⟩
      else
        let rest := ollamaTextAux backend maxRetries (attempt + 1) fuel
        ⟨rest.result, rest.attempts + 1, 2 ^ attempt :: rest.sleeps⟩

/-- `OllamaService.generate_text` (ollama_service.py lines 79-193). -/
def ollamaGenerateText (available : Bool) (backend : Nat → OllamaTextAttempt) (maxRetries : Nat) : OllamaRun :=
  if ¬ available then
    ⟨.error (.runtimeError "Ollama AI is not available. Check Ollama URL and model configuration."), 0, []⟩
  else ollamaTextAux backend maxRetries 0 maxRetries

/-- Outcome of one awaited Ollama `/api/chat` vision attempt. -/
inductive OllamaImageAttempt where
  | ok (data : Json) : OllamaImageAttempt
  | asyncTimeout : OllamaImageAttempt
  | exc (e : PyExc) : OllamaImageAttempt

/-- Outcome of one attempt body of `OllamaService.generate_with_image`
(ollama_service.py lines 214-249): return a value, an `asyncio` timeout, or
a raised exception. -/
inductive ImgBodyOutcome where
  | ret (v : Json) : ImgBodyOutcome
  | timeoutO : ImgBodyOutcome
  | raised (e : PyExc) : ImgBodyOutcome

/-- One attempt body of `OllamaService.generate_with_image`: a failed
connection pre-check raises `ConnectionError` inside the `try`; otherwise the
chat response must carry `message.content`, else `ValueError`. -/
def ollamaImageBody (connCheck : Nat → Bool) (backend : Nat → OllamaImageAttempt) (attempt : Nat) :
    ImgBodyOutcome :=
  if ¬ connCheck attempt then .raised (.connectionError "Ollama server is not reachable")
  else
    match backend attempt with
    | .asyncTimeout => .timeoutO
    | .exc e => .raised e
    | .ok data =>
      match (do
        let hasMessage ← pyContains data "message"
        let hasContent ←
          if hasMessage then do
            let m ← pySubscript data "message"
            pyContains m "content"
          else pure false
        if hasContent then do
          let m ← pySubscript data "message"
          pySubscript m "content"
        else .error (.valueError "Empty or invalid response from Ollama") : Except PyExc Json) with
      | .ok v => .ret v
      | .error e => .raised e

/-- The retry loop of `OllamaService.generate_with_image` (ollama_service.py
lines 213-268): timeouts and keyword-retryable exceptions back off and
retry; other exceptions propagate at once. -/
def ollamaImageAux (connCheck : Nat → Bool) (backend : Nat → OllamaImageAttempt) (maxRetries : Nat) :
    Nat → Nat → OllamaRun
  | _attempt, 0 => ⟨.ok none, 0, []⟩
  | attempt, fuel + 1 =>
    match ollamaImageBody connCheck backend attempt with
    | .ret v => ⟨.ok (some v), 1, []⟩
    | .timeoutO =>
      if attempt = maxRetries - 1 then
        ⟨.error (.timeoutError "Ollama API request with image timed out"), 1, []⟩
      else
        let rest := ollamaImageAux connCheck backend maxRetries (attempt + 1) fuel
        ⟨rest.result, rest.attempts + 1, 2 ^ attempt :: rest.sleeps⟩
    | .raised e =>
      if isRetryableMsg ollamaImageKeywords e.msg then
        (if attempt = maxRetries - 1 then
          ⟨.error (.connectionError "Failed to connect to Ollama API"), 1, []⟩
        else
          let rest := ollamaImageAux connCheck backend maxRetries (attempt + 1) fuel
          ⟨rest.result, rest.attempts + 1, 2 ^ attempt :: rest.sleeps⟩)
      else ⟨.error e, 1, []⟩

/-- `OllamaService.generate_with_image` (ollama_service.py lines 195-268). -/
def ollamaGenerateWithImage (available : Bool) (connCheck : Nat → Bool)
    (backend : Nat → OllamaImageAttempt) (maxRetries : Nat) : OllamaRun :=
  if ¬ available then
    ⟨.error (.runtimeError "Ollama AI is not available. Check Ollama URL and model configuration."), 0, []⟩
  else ollamaImageAux connCheck backend maxRetries 0 maxRetries

/-!
## Image download (`ImageService.download_image`, image_service.py lines 18-51)
-/

/-- Outcome of one image-download HTTP attempt: the body bytes (modelled as a
string), an `httpx.TimeoutException`, another `httpx.RequestError`, or any
other exception (e.g. `raise_for_status` on an error status, which is an
`httpx.HTTPStatusError` and not a `RequestError`). -/
inductive DownloadAttempt where
  | ok (content : String) : DownloadAttempt
  | httpTimeout : DownloadAttempt
  | requestError (msg : String) : DownloadAttempt
  | exc (e : PyExc) : DownloadAttempt

/-- The retry loop of `ImageService.download_image` with its hard-coded
budget of 3 attempts: timeouts and request errors back off and retry, and
after the final attempt — like any other in-`try` exception immediately —
the failure is re-raised as a `ValueError`. -/
def downloadImageAux (backend : Nat → DownloadAttempt) (timeoutS : Nat) :
    Nat → Nat → Except PyExc (Option String)
  | _attempt, 0 => .ok none
  | attempt, fuel + 1 =>
    match backend attempt with
    | .ok content => .ok (some content)
    | .httpTimeout =>
      if attempt = 3 - 1 then
        .error (.valueError ("Failed to download image: timeout after " ++ toString timeoutS ++ "s"))
      else downloadImageAux backend timeoutS (attempt + 1) fuel
    | .requestError msg =>
      if attempt = 3 - 1 then .error (.valueError ("Failed to download image: " ++ msg))
      else downloadImageAux backend timeoutS (attempt + 1) fuel
    | .exc e => .error (.valueError ("Failed to download image: " ++ e.msg))

/-- `ImageService.download_image` (image_service.py lines 18-51). -/
def downloadImage (backend : Nat → DownloadAttempt) (timeoutS : Nat) : Except PyExc (Option String) :=
  downloadImageAux backend timeoutS 0 3

/-!
## Recognition orchestrator error mapping
(`RecognitionService.recognize_ingredients`, recognition_service.py lines 113-149)
-/

/-- The HTTP status that `recognize_ingredients`'s `except` chain assigns to
an exception escaping its body: `TimeoutError` 504, `ConnectionError` 503,
`ValueError` (including `json.JSONDecodeError`) 400, and for any other
exception 401/504/500 by message inspection. -/
def recognitionStatusOf (e : PyExc) : Nat :=
  match e with
  | .timeoutError _ => 504
  | .connectionError _ => 503
  | .valueError _ => 400
  | .jsonDecodeError _ => 400
  | _ =>
    let m := pyLower e.msg
    if strContains m "api key" ∨ strContains m "authentication" then 401
    else if strContains m "timeout" then 504
    else 500

/-!
## Response extraction (`recognition_service.py`, `recipe_service.py`)
-/

/-- `re.search` of a greedy bracketed span with `re.DOTALL`: from the first
occurrence of the opening character to the last occurrence of the closing
character, provided the latter comes later. -/
def reSearchSpan (opn cls : Char) (cs : List Char) : Option (List Char) :=
  match cs.findIdx? (fun c => c = opn) with
  | none => none
  | some i =>
    match cs.reverse.findIdx? (fun c => c = cls) with
    | none => none
    | some jr =>
      let j := cs.length - 1 - jr
      if i < j then some ((cs.drop i).take (j - i + 1)) else none

/-- The JSON-decoding step shared by both list extractors (lines 167-173 of
recognition_service.py, lines 284-289 of recipe_service.py): decode the
bracketed span when one matches, else decode the entire text. -/
def extractListJsonData (responseText : String) : Except PyExc Json :=
  match reSearchSpan '[' ']' responseText.toList with
  | some jsonStr => jsonLoads (String.mk jsonStr)
  | none => jsonLoads responseText

/-- An extracted ingredient record (`app/models/schemas.py` `Ingredient`);
non-confidence fields are kept as the raw decoded values. -/
structure Ingredient where
  name : Json
  confidence : Rat
  quantity : Json
  unit : Json

/-- Build one `Ingredient` from a decoded item (recognition_service.py lines
177-183): absent name defaults to `""`, absent confidence to 0.5 before the
`float(...)` coercion, absent quantity/unit to `None`. -/
def ingredientOfItem (item : Json) : Except PyExc Ingredient := do
  let name ← pyGet item "name" (.str "")
  let confVal ← pyGet item "confidence" (.num (1 / 2))
  let confidence ← pyFloat confVal
  let quantity ← pyGet item "quantity" .null
  let unit ← pyGet item "unit" .null
  pure ⟨name, confidence, quantity, unit⟩

/-- The extraction loop over the decoded items. -/
def ingredientsOfItems : List Json → Except PyExc (List Ingredient)
  | [] => .ok []
  | item :: rest => do
    let ing ← ingredientOfItem item
    let tail ← ingredientsOfItems rest
    pure (ing :: tail)

/-- One line of `RecognitionService._fallback_parse` (recognition_service.py
lines 207-217): strip the line; keep it when it is nonempty, longer than 2
characters and does not start with a brace or bracket; its name is the first
comma-delimited token stripped, with fixed confidence 0.7. -/
def fallbackIngredientOfLine (rawLine : String) : Option Ingredient :=
  let line := rawLine.trim
  if line ≠ "" ∧ 2 < line.length then
    if ¬ line.startsWith (String.mk [lbraceChar]) ∧ ¬ line.startsWith "[" then
      some ⟨.str (((line.splitOn ",").headD "").trim), 7 / 10, .null, .null⟩
    else none
  else none

/-- `RecognitionService._fallback_parse` (recognition_service.py lines
192-219): line heuristic, capped at 10 ingredients. -/
def fallbackParseIngredients (responseText : String) : List Ingredient :=
  ((responseText.splitOn "\n").filterMap fallbackIngredientOfLine).take 10

/-- `RecognitionService._parse_ingredients_response` (recognition_service.py
lines 151-190): JSON extraction, falling back to the line heuristic when a
`json.JSONDecodeError`, `KeyError` or `ValueError` is raised; any other
exception (e.g. `TypeError`, `AttributeError`) propagates. -/
def parseIngredientsResponse (responseText : String) : Except PyExc (List Ingredient) :=
  let att : Except PyExc (List Ingredient) := do
    let ingredientsData ← extractListJsonData responseText
    let items ← pyIter ingredientsData
    ingredientsOfItems items
  match att with
  | .ok r => .ok r
  | .error e =>
    match e with
    | .jsonDecodeError _ => .ok (fallbackParseIngredients responseText)
    | .keyError _ => .ok (fallbackParseIngredients responseText)
    | .valueError _ => .ok (fallbackParseIngredients responseText)
    | _ => .error e

/-- An extracted recipe record (`app/models/schemas.py` `Recipe`); fields
other than the recomputed match percentage are kept as the raw decoded
values. -/
structure Recipe where
  rid : Json
  rname : Json
  description : Json
  ingredientsRequired : Json
  ingredientsMissing : Json
  matchPercentage : Rat
  cookingTime : Json
  difficulty : Json
  cuisine : Json
  dietaryInfo : Json
  imageUrl : Json

/-- Build one `Recipe` from a decoded item (recipe_service.py lines
292-313): the match percentage is recomputed from the lengths of the
required and missing lists — `(len(required) - len(missing)) / len(required)
* 100`, and `0.0` when `required` is falsy — never taken from the item. -/
def recipeOfItem (idx : Nat) (item : Json) : Except PyExc Recipe := do
  let required ← pyGet item "ingredients_required" (.arr [])
  let missing ← pyGet item "ingredients_missing" (.arr [])
  let matchPct ←
    if pyTruthy required then do
      let lenRequired ← pyLen required
      let lenMissing ← pyLen missing
      pure (((lenRequired : Rat) - (lenMissing : Rat)) / (lenRequired : Rat) * 100)
    else pure (0 : Rat)
  let rid ← pyGet item "id" (.str ("recipe_" ++ toString idx))
  let rname ← pyGet item "name" (.str "Unknown Recipe")
  let description ← pyGet item "description" (.str "")
  let cookingTime ← pyGet item "cooking_time" (.num 30)
  let difficulty ← pyGet item "difficulty" (.str "beginner")
  let cuisine ← pyGet item "cuisine" .null
  let dietaryInfo ← pyGet item "dietary_info" (.arr [])
  let imageUrl ← pyGet item "image_url" .null
  pure ⟨rid, rname, description, required, missing, matchPct, cookingTime, difficulty, cuisine,
    dietaryInfo, imageUrl⟩

/-- The extraction loop over the decoded items (`enumerate(recipes_data)`). -/
def recipesOfItems (idx : Nat) : List Json → Except PyExc (List Recipe)
  | [] => .ok []
  | item :: rest => do
    let r ← recipeOfItem idx item
    let tail ← recipesOfItems (idx + 1) rest
    pure (r :: tail)

/-- `RecipeService._parse_recipes_response` (recipe_service.py lines
280-319): JSON extraction with NO fallback — a `json.JSONDecodeError` or
`KeyError` is re-raised as `ValueError("Invalid recipe response format")`,
and any other exception propagates unchanged. -/
def parseRecipesResponse (responseText : String) : Except PyExc (List Recipe) :=
  let att : Except PyExc (List Recipe) := do
    let recipesData ← extractListJsonData responseText
    let items ← pyIter recipesData
    recipesOfItems 0 items
  match att with
  | .ok r => .ok r
  | .error e =>
    match e with
    | .jsonDecodeError _ => .error (.valueError "Invalid recipe response format")
    | .keyError _ => .error (.valueError "Invalid recipe response format")
    | _ => .error e

/-!
# Theorems

Helper lemmas first, then one theorem per claim (with witness theorems for
those whose statements carry hypotheses).
-/

theorem pyTry_ok_handler {α : Type} (body : Except PyExc α) (handler : PyExc → Except PyExc α)
    (h : ∀ e, ∃ a, handler e = .ok a) : ∃ a, pyTry body handler = .ok a := by
  cases body with
  | ok a => exact ⟨a, rfl⟩
  | error e => exact h e

theorem pyGet_obj (fs : List (String × Json)) (key : String) (default : Json) :
    pyGet (.obj fs) key default = .ok ((jsonObjFind fs key).getD default) := by
  cases h : jsonObjFind fs key <;> simp [pyGet, h]

theorem cacheGet_total (enabled : Bool) (client : Option RedisClient) (key : String) :
    ∃ r, cacheGet enabled client key = .ok r := by
  unfold cacheGet
  split
  · exact ⟨none, rfl⟩
  · cases client with
    | none => exact ⟨none, rfl⟩
    | some c => exact pyTry_ok_handler _ _ (fun e => ⟨none, rfl⟩)

theorem cacheSet_total (enabled : Bool) (client : Option RedisClient) (key : String)
    (value : Json) (ttl : Nat) : ∃ b, cacheSet enabled client key value ttl = .ok b := by
  unfold cacheSet
  split
  · exact ⟨false, rfl⟩
  · cases client with
    | none => exact ⟨false, rfl⟩
    | some c => exact pyTry_ok_handler _ _ (fun e => ⟨false, rfl⟩)

theorem cacheDelete_total (enabled : Bool) (client : Option RedisClient) (key : String) :
    ∃ b, cacheDelete enabled client key = .ok b := by
  unfold cacheDelete
  split
  · exact ⟨false, rfl⟩
  · cases client with
    | none => exact ⟨false, rfl⟩
    | some c => exact pyTry_ok_handler _ _ (fun e => ⟨false, rfl⟩)

theorem cacheExists_total (enabled : Bool) (client : Option RedisClient) (key : String) :
    ∃ b, cacheExists enabled client key = .ok b := by
  unfold cacheExists
  split
  · exact ⟨false, rfl⟩
  · cases client with
    | none => exact ⟨false, rfl⟩
    | some c => exact pyTry_ok_handler _ _ (fun e => ⟨false, rfl⟩)

theorem cache_disabled_cond (enabled : Bool) (client : Option RedisClient)
    (h : enabled = false ∨ client = none) : (¬ enabled ∨ client.isNone) := by
  rcases h with h | h
  · exact Or.inl (by simp [h])
  · exact Or.inr (by simp [h])

/-- C8: Cache Store operations never raise to the caller: for every
key/value/ttl, when the cache is disabled or the backend raises any error,
`get` returns absent (None), and `set`, `delete`, and `exists` return false,
with no exception propagated. -/
theorem claim_C8_cache_never_raises (enabled : Bool) (client : Option RedisClient)
    (key : String) (value : Json) (ttl : Nat) :
    ((∃ r, cacheGet enabled client key = .ok r) ∧
     (∃ b, cacheSet enabled client key value ttl = .ok b) ∧
     (∃ b, cacheDelete enabled client key = .ok b) ∧
     (∃ b, cacheExists enabled client key = .ok b)) ∧
    (enabled = false ∨ client = none →
      cacheGet enabled client key = .ok none ∧
      cacheSet enabled client key value ttl = .ok false ∧
      cacheDelete enabled client key = .ok false ∧
      cacheExists enabled client key = .ok false) ∧
    (∀ c, client = some c →
      ((∃ e, c.getResp key = .error e) → cacheGet enabled client key = .ok none) ∧
      ((∃ e, c.setexResp key ttl (jsonDumps value) = .error e) →
        cacheSet enabled client key value ttl = .ok false) ∧
      ((∃ e, c.delResp key = .error e) → cacheDelete enabled client key = .ok false) ∧
      ((∃ e, c.existsResp key = .error e) → cacheExists enabled client key = .ok false)) := by
  refine ⟨⟨cacheGet_total _ _ _, cacheSet_total _ _ _ _ _, cacheDelete_total _ _ _,
    cacheExists_total _ _ _⟩, ?_, ?_⟩
  · intro h
    have hc := cache_disabled_cond enabled client h
    exact ⟨by unfold cacheGet; rw [if_pos hc], by unfold cacheSet; rw [if_pos hc],
      by unfold cacheDelete; rw [if_pos hc], by unfold cacheExists; rw [if_pos hc]⟩
  · intro c hc
    subst hc
    refine ⟨?_, ?_, ?_, ?_⟩
    · rintro ⟨e, he⟩
      unfold cacheGet
      split
      · rfl
      · simp only [pyTry, he, Except.bind]
        rfl
    · rintro ⟨e, he⟩
      unfold cacheSet
      split
      · rfl
      · simp only [pyTry, he, Except.bind]
        rfl
    · rintro ⟨e, he⟩
      unfold cacheDelete
      split
      · rfl
      · simp only [pyTry, he, Except.bind]
        rfl
    · rintro ⟨e, he⟩
      unfold cacheExists
      split
      · rfl
      · simp only [pyTry, he, Except.bind]
        rfl

/-- Witness for C8 at a concrete failing backend and at the disabled mode. -/
theorem claim_C8_cache_never_raises_witness :
    (true = false ∨ (some failingRedisClient : Option RedisClient) = none →
      cacheGet true (some failingRedisClient) "k" = .ok none ∧
      cacheSet true (some failingRedisClient) "k" .null 60 = .ok false ∧
      cacheDelete true (some failingRedisClient) "k" = .ok false ∧
      cacheExists true (some failingRedisClient) "k" = .ok false) ∧
    (cacheGet true (some failingRedisClient) "k" = .ok none ∧
     cacheSet true (some failingRedisClient) "k" .null 60 = .ok false ∧
     cacheDelete true (some failingRedisClient) "k" = .ok false ∧
     cacheExists true (some failingRedisClient) "k" = .ok false) ∧
    (cacheGet false none "k" = .ok none ∧ cacheSet false none "k" .null 60 = .ok false) := by
  have h := claim_C8_cache_never_raises true (some failingRedisClient) "k" .null 60
  have h2 := claim_C8_cache_never_raises false none "k" .null 60
  obtain ⟨-, hdis, hbe⟩ := h
  obtain ⟨hg, hs, hd, he⟩ := hbe failingRedisClient rfl
  refine ⟨hdis, ⟨?_, ?_, ?_, ?_⟩, ?_⟩
  · exact hg ⟨_, rfl⟩
  · exact hs ⟨_, rfl⟩
  · exact hd ⟨_, rfl⟩
  · exact he ⟨_, rfl⟩
  · obtain ⟨-, hdis2, -⟩ := h2
    obtain ⟨a, b, -, -⟩ := hdis2 (Or.inl rfl)
    exact ⟨a, b⟩

theorem md5Hex_length (s : String) : (md5Hex s).length = 32 := by
  simp [md5Hex, String.length]

theorem isHexDigitChar_hexChar (n : Nat) : isHexDigitChar (hexChar n) = true := by
  rcases Nat.lt_or_ge n 16 with h | h
  · interval_cases n <;> decide
  · unfold hexChar
    rw [List.getD_eq_default]
    · decide
    · have : ("0123456789abcdef".toList).length = 16 := by decide
      omega

theorem md5Hex_allHex (s : String) : (md5Hex s).toList.all isHexDigitChar = true := by
  rw [List.all_eq_true]
  intro c hc
  simp only [md5Hex, String.toList] at hc
  rw [List.mem_map] at hc
  obtain ⟨i, -, rfl⟩ := hc
  exact isHexDigitChar_hexChar _

/-- C9: for every input to `generate_key` whose raw joined key exceeds 250
characters, the returned key is exactly the namespace, a `:` delimiter and a
32-hex-character content hash of the raw key; for raw keys of length at most
250, the raw joined key itself is returned. -/
theorem claim_C9_key_length_bound (ns : String) (args : List PyVal)
    (kwargs : List (String × PyVal)) :
    (250 < (rawCacheKey ns args kwargs).length →
      generate_key ns args kwargs = ns ++ ":" ++ md5Hex (rawCacheKey ns args kwargs) ∧
      (md5Hex (rawCacheKey ns args kwargs)).length = 32 ∧
      (md5Hex (rawCacheKey ns args kwargs)).toList.all isHexDigitChar = true) ∧
    ((rawCacheKey ns args kwargs).length ≤ 250 →
      generate_key ns args kwargs = rawCacheKey ns args kwargs) := by
  constructor
  · intro h
    exact ⟨by simp [generate_key, h], md5Hex_length _, md5Hex_allHex _⟩
  · intro h
    simp [generate_key, Nat.not_lt.mpr h]

set_option maxRecDepth 10000 in
/-- Witness for C9: a 300-character argument triggers the hashed form; the
empty argument list stays raw. -/
theorem claim_C9_key_length_bound_witness :
    (250 < (rawCacheKey "p" [.pstr (String.mk (List.replicate 300 'x'))] []).length ∧
      generate_key "p" [.pstr (String.mk (List.replicate 300 'x'))] [] =
        "p" ++ ":" ++ md5Hex (rawCacheKey "p" [.pstr (String.mk (List.replicate 300 'x'))] []) ∧
      (md5Hex (rawCacheKey "p" [.pstr (String.mk (List.replicate 300 'x'))] [])).length = 32 ∧
      (md5Hex (rawCacheKey "p" [.pstr (String.mk (List.replicate 300 'x'))] [])).toList.all
        isHexDigitChar = true) ∧
    ((rawCacheKey "p" [] []).length ≤ 250 ∧ generate_key "p" [] [] = rawCacheKey "p" [] []) := by
  have hlong : 250 < (rawCacheKey "p" [.pstr (String.mk (List.replicate 300 'x'))] []).length := by
    decide
  have hshort : (rawCacheKey "p" [] []).length ≤ 250 := by decide
  exact ⟨⟨hlong, (claim_C9_key_length_bound "p" _ []).1 hlong⟩,
    hshort, (claim_C9_key_length_bound "p" [] []).2 hshort⟩

theorem jsonLoads_error_shape (s : String) (e : PyExc) (h : jsonLoads s = .error e) :
    ∃ m, e = .jsonDecodeError m := by
  unfold jsonLoads at h
  split at h
  · split at h
    · simp at h
    · exact ⟨"Extra data", (Except.error.inj h).symm⟩
  · exact ⟨"Expecting value", (Except.error.inj h).symm⟩

theorem extractListJsonData_error_shape (t : String) (e : PyExc)
    (h : extractListJsonData t = .error e) : ∃ m, e = .jsonDecodeError m := by
  unfold extractListJsonData at h
  split at h
  · exact jsonLoads_error_shape _ _ h
  · exact jsonLoads_error_shape _ _ h

theorem fallbackIngredientOfLine_confidence (line : String) (ing : Ingredient)
    (h : fallbackIngredientOfLine line = some ing) : ing.confidence = 7 / 10 := by
  simp only [fallbackIngredientOfLine] at h
  split_ifs at h
  cases h
  rfl

/-- C2 (amended): whenever the JSON-decoding step of ingredient-list
extraction fails (no bracketed span and no whole-text decode yields JSON),
`_parse_ingredients_response` returns the line-heuristic fallback — at most
10 records, each with the fixed default confidence 0.7 — instead of raising;
the recipe-list extractor (see the counterexample) raises instead. -/
theorem claim_C2_amended_fallback (t : String) (h : ∃ e, extractListJsonData t = .error e) :
    parseIngredientsResponse t = .ok (fallbackParseIngredients t) ∧
    (fallbackParseIngredients t).length ≤ 10 ∧
    ∀ ing ∈ fallbackParseIngredients t, ing.confidence = 7 / 10 := by
  obtain ⟨e, he⟩ := h
  obtain ⟨m, rfl⟩ := extractListJsonData_error_shape t e he
  refine ⟨?_, ?_, ?_⟩
  · unfold parseIngredientsResponse
    rw [show (do
        let ingredientsData ← extractListJsonData t
        let items ← pyIter ingredientsData
        ingredientsOfItems items : Except PyExc (List Ingredient)) =
      .error (.jsonDecodeError m) by rw [bind, Except.instMonad]; simp [Except.bind, he]]
  · exact le_trans (List.length_take_le _ _) (le_refl 10)
  · intro ing hin
    have hmem : ing ∈ (t.splitOn "\n").filterMap fallbackIngredientOfLine :=
      List.mem_of_mem_take hin
    rw [List.mem_filterMap] at hmem
    obtain ⟨line, -, hline⟩ := hmem
    exact fallbackIngredientOfLine_confidence line ing hline

/-- Witness for C2's amended theorem at the specification's own fallback
example text. -/
theorem claim_C2_amended_fallback_witness :
    parseIngredientsResponse "egg\nmilk\nflour" =
      .ok (fallbackParseIngredients "egg\nmilk\nflour") ∧
    (fallbackParseIngredients "egg\nmilk\nflour").length ≤ 10 ∧
    ∀ ing ∈ fallbackParseIngredients "egg\nmilk\nflour", ing.confidence = 7 / 10 :=
  claim_C2_amended_fallback "egg\nmilk\nflour" ⟨.jsonDecodeError "Expecting value", rfl⟩

/-- C2 counterexample: recipe-list extraction — list-shaped output — raises a
`ValueError` to its caller when no JSON can be decoded, instead of falling
back. -/
theorem claim_C2_counterexample :
    parseRecipesResponse "hello" = .error (.valueError "Invalid recipe response format") := rfl

/-- C3 counterexample: a URL download failing on every attempt with a
connection error surfaces as a `ValueError`, which the recognition error
chain maps to HTTP 400 (validation class), not 503. -/
theorem claim_C3_counterexample :
    downloadImage (fun _ => .requestError "Connection refused") 120 =
      .error (.valueError "Failed to download image: Connection refused") ∧
    recognitionStatusOf (.valueError "Failed to download image: Connection refused") = 400 ∧
    recognitionStatusOf (.valueError "Failed to download image: Connection refused") ≠ 503 := by
  exact ⟨rfl, rfl, by decide⟩

/-- C3 (amended): when image download by URL fails after exhausting its 3
retries (connection error or timeout on every attempt), the failure is raised
as a `ValueError`, which the recognition operation surfaces as the
validation-class outcome (HTTP 400), not the BackendUnavailable 503
disposition. -/
theorem claim_C3_amended_download_maps_to_400 (backend : Nat → DownloadAttempt) (timeoutS : Nat)
    (h : ∀ i, i < 3 → backend i = .httpTimeout ∨ ∃ m, backend i = .requestError m) :
    ∃ m, downloadImage backend timeoutS = .error (.valueError m) ∧
      recognitionStatusOf (.valueError m) = 400 := by
  have h0 := h 0 (by omega)
  have h1 := h 1 (by omega)
  have h2 := h 2 (by omega)
  unfold downloadImage
  rcases h0 with h0 | ⟨m0, h0⟩ <;> rcases h1 with h1 | ⟨m1, h1⟩ <;>
    rcases h2 with h2 | ⟨m2, h2⟩ <;>
    · simp [downloadImageAux, h0, h1, h2]
      rfl

/-- Witness for C3's amended theorem: every attempt times out. -/
theorem claim_C3_amended_download_maps_to_400_witness :
    ∃ m, downloadImage (fun _ => .httpTimeout) 120 = .error (.valueError m) ∧
      recognitionStatusOf (.valueError m) = 400 :=
  claim_C3_amended_download_maps_to_400 (fun _ => .httpTimeout) 120
    (fun _ _ => Or.inl rfl)

/-- C4: every recipe record parsed from a decoded item has match percentage
`(len(required) - len(missing)) / len(required) * 100` (0 when the required
list is empty), computed from the required/missing lists alone — any match
percentage present in the item itself is discarded. -/
theorem except_ok_bind {α β : Type} (a : α) (f : α → Except PyExc β) :
    (Except.ok a >>= f : Except PyExc β) = f a := rfl

theorem except_pure_bind {α β : Type} (a : α) (f : α → Except PyExc β) :
    (pure a >>= f : Except PyExc β) = f a := rfl

theorem claim_C4_match_percentage (idx : Nat) (fs : List (String × Json)) (rs ms : List Json)
    (hreq : pyGet (.obj fs) "ingredients_required" (.arr []) = .ok (.arr rs))
    (hmiss : pyGet (.obj fs) "ingredients_missing" (.arr []) = .ok (.arr ms)) :
    ∃ r, recipeOfItem idx (.obj fs) = .ok r ∧
      r.matchPercentage =
        if rs.isEmpty then 0
        else ((rs.length : Rat) - (ms.length : Rat)) / (rs.length : Rat) * 100 := by
  unfold recipeOfItem
  rw [hreq, hmiss]
  cases rs with
  | nil =>
    simp only [except_ok_bind, except_pure_bind, pyGet_obj, pyLen, pyTruthy,
      List.isEmpty_nil, Bool.not_true, Bool.false_eq_true, if_false]
    exact ⟨_, rfl, by simp⟩
  | cons x xs =>
    simp only [except_ok_bind, except_pure_bind, pyGet_obj, pyLen, pyTruthy,
      List.isEmpty_cons, Bool.not_false, if_true]
    exact ⟨_, rfl, by simp⟩

/-- Witness for C4: required=a,b,c and missing=b yield 200/3 (= 66.67 up to
rounding) even though the item claims a match percentage of 10. -/
theorem claim_C4_match_percentage_witness :
    ∃ r, recipeOfItem 0 (.obj [("ingredients_required", .arr [.str "a", .str "b", .str "c"]),
        ("ingredients_missing", .arr [.str "b"]), ("match_percentage", .num 10)]) = .ok r ∧
      r.matchPercentage = 200 / 3 := by
  obtain ⟨r, hr, hm⟩ := claim_C4_match_percentage 0
    [("ingredients_required", .arr [.str "a", .str "b", .str "c"]),
     ("ingredients_missing", .arr [.str "b"]), ("match_percentage", .num 10)]
    [.str "a", .str "b", .str "c"] [.str "b"] rfl rfl
  refine ⟨r, hr, ?_⟩
  rw [hm]
  norm_num

theorem isRateLimitedMemory_snd (pm ph : Nat) (st : RateState) (clientId : String) (now : Int) :
    (isRateLimitedMemory pm ph st clientId now).2 =
      fun c => if c = clientId then
        (st clientId).filter (fun reqTime => decide (now - reqTime < 3600)) else st c := by
  simp only [isRateLimitedMemory]
  split_ifs <;> rfl

/-- C10 (amended): a request rejected by the in-memory rate limiter appends
no timestamp (the 429 rejection is raised before the recording step, which is
never reached): the only state change of a rejected request is that the
checked identity's log is replaced by its within-one-hour entries (the check
prunes older entries in place); all other identities' logs are untouched. -/
theorem claim_C10_amended_rejected_not_recorded (pm ph : Nat) (st : RateState)
    (clientId : String) (now : Int)
    (h : (isRateLimitedMemory pm ph st clientId now).1 = true) :
    dispatchMemory pm ph st clientId now =
      (false, fun c => if c = clientId then
        (st clientId).filter (fun reqTime => decide (now - reqTime < 3600)) else st c) := by
  simp only [dispatchMemory, h, if_true, isRateLimitedMemory_snd]

/-- C10 counterexample: a rejected request does change the in-memory
timestamp log — the admission check prunes a stale (2-hour-old) entry from
the checked identity's log even as it rejects. -/
theorem claim_C10_counterexample :
    (dispatchMemory 60 1000
        (fun c => if c = "ip:x" then (0 : Int) :: List.replicate 60 7199 else [])
        "ip:x" 7200).1 = false ∧
    (dispatchMemory 60 1000
        (fun c => if c = "ip:x" then (0 : Int) :: List.replicate 60 7199 else [])
        "ip:x" 7200).2 "ip:x" ≠ (0 : Int) :: List.replicate 60 7199 := by
  decide

/-- Witness for C10's amended theorem at the counterexample's state. -/
theorem claim_C10_amended_rejected_not_recorded_witness :
    dispatchMemory 60 1000
        (fun c => if c = "ip:x" then (0 : Int) :: List.replicate 60 7199 else [])
        "ip:x" 7200 =
      (false, fun c => if c = "ip:x" then
        (((fun c => if c = "ip:x" then (0 : Int) :: List.replicate 60 7199 else []) "ip:x").filter
          (fun reqTime => decide ((7200 : Int) - reqTime < 3600)))
        else (fun c => if c = "ip:x" then (0 : Int) :: List.replicate 60 7199 else []) c) :=
  claim_C10_amended_rejected_not_recorded 60 1000
    (fun c => if c = "ip:x" then (0 : Int) :: List.replicate 60 7199 else [])
    "ip:x" 7200 (by decide)

theorem geminiTextAux_all_timeout (backend : Nat → GenAttempt) (maxRetries : Nat)
    (hb : ∀ i, backend i = .timeout) :
    ∀ fuel attempt, fuel + attempt = maxRetries → 1 ≤ fuel →
      geminiTextAux backend maxRetries attempt fuel =
        ⟨.error (.timeoutError "Gemini API request timed out"), fuel,
          (List.range' attempt (fuel - 1)).map (fun k => 2 ^ k)⟩ := by
  intro fuel
  induction fuel with
  | zero => intro attempt _ h1; omega
  | succ f ih =>
    intro attempt h _
    rw [geminiTextAux]
    simp only [hb attempt]
    cases f with
    | zero =>
      have hlast : attempt = maxRetries - 1 := by omega
      rw [if_pos hlast]
      rfl
    | succ f' =>
      have hlast : ¬ attempt = maxRetries - 1 := by omega
      rw [if_neg hlast, ih (attempt + 1) (by omega) (by omega)]
      simp [List.range'_succ]

theorem ollamaTextBody_timeout_classes (backend : Nat → OllamaTextAttempt) (i : Nat)
    (h : backend i = .asyncTimeout ∨ ∃ m, backend i = .httpTimeout m) :
    ollamaTextBody backend i = .error .asyncTimeout ∨
      ∃ m, ollamaTextBody backend i = .error (.httpTimeoutE m) := by
  rcases h with h | ⟨m, h⟩
  · exact Or.inl (by simp [ollamaTextBody, h])
  · exact Or.inr ⟨m, by simp [ollamaTextBody, h]⟩

theorem ollamaTextAux_all_timeout (backend : Nat → OllamaTextAttempt) (maxRetries : Nat)
    (hb : ∀ i, backend i = .asyncTimeout ∨ ∃ m, backend i = .httpTimeout m) :
    ∀ fuel attempt, fuel + attempt = maxRetries → 1 ≤ fuel →
      ∃ msg, ollamaTextAux backend maxRetries attempt fuel =
        ⟨.error (.timeoutError msg), fuel,
          (List.range' attempt (fuel - 1)).map (fun k => 2 ^ k)⟩ := by
  intro fuel
  induction fuel with
  | zero => intro attempt _ h1; omega
  | succ f ih =>
    intro attempt h _
    cases f with
    | zero =>
      have hlast : attempt = maxRetries - 1 := by omega
      rcases ollamaTextBody_timeout_classes backend attempt (hb attempt) with hbody | ⟨m, hbody⟩
      · exact ⟨"Ollama API request timed out", by
          rw [ollamaTextAux]
          simp only [hbody]
          rw [if_pos hlast]
          rfl⟩
      · exact ⟨"Request to Ollama timed out", by
          rw [ollamaTextAux]
          simp only [hbody]
          rw [if_pos hlast]
          rfl⟩
    | succ f' =>
      have hlast : ¬ attempt = maxRetries - 1 := by omega
      obtain ⟨msg, hrec⟩ := ih (attempt + 1) (by omega) (by omega)
      rcases ollamaTextBody_timeout_classes backend attempt (hb attempt) with hbody | ⟨m, hbody⟩ <;>
      · refine ⟨msg, ?_⟩
        rw [ollamaTextAux]
        simp only [hbody]
        rw [if_neg hlast, hrec]
        simp [List.range'_succ]

/-- C7: for a generation call whose backend times out on every attempt, both
Generative Client text loops raise the timeout-class error after exactly
`max_retries` attempts, and the backoff delays are `2^(k-1)` before retry
`k`, i.e. the sequence `1, 2, 4, …` (here: `(List.range (maxRetries-1)).map
(2 ^ ·)`). -/
theorem claim_C7_timeout_exhausts_budget (maxRetries : Nat)
    (gBackend : Nat → GenAttempt) (oBackend : Nat → OllamaTextAttempt)
    (hmr : 1 ≤ maxRetries)
    (hg : ∀ i, gBackend i = .timeout)
    (ho : ∀ i, oBackend i = .asyncTimeout ∨ ∃ m, oBackend i = .httpTimeout m) :
    ((geminiGenerateText true gBackend maxRetries).result =
        .error (.timeoutError "Gemini API request timed out") ∧
      (geminiGenerateText true gBackend maxRetries).attempts = maxRetries ∧
      (geminiGenerateText true gBackend maxRetries).sleeps =
        (List.range (maxRetries - 1)).map (fun k => 2 ^ k)) ∧
    ((∃ m, (ollamaGenerateText true oBackend maxRetries).result =
        .error (.timeoutError m)) ∧
      (ollamaGenerateText true oBackend maxRetries).attempts = maxRetries ∧
      (ollamaGenerateText true oBackend maxRetries).sleeps =
        (List.range (maxRetries - 1)).map (fun k => 2 ^ k)) := by
  have hgem := geminiTextAux_all_timeout gBackend maxRetries hg maxRetries 0 (by omega) hmr
  obtain ⟨msg, holl⟩ := ollamaTextAux_all_timeout oBackend maxRetries ho maxRetries 0 (by omega) hmr
  constructor
  · rw [show geminiGenerateText true gBackend maxRetries =
        geminiTextAux gBackend maxRetries 0 maxRetries from rfl, hgem]
    exact ⟨rfl, rfl, by rw [List.range_eq_range']⟩
  · rw [show ollamaGenerateText true oBackend maxRetries =
        ollamaTextAux oBackend maxRetries 0 maxRetries from rfl, holl]
    exact ⟨⟨msg, rfl⟩, rfl, by rw [List.range_eq_range']⟩

/-- Witness for C7 at the configured Ollama default budget of 3 attempts:
delays 1 then 2. -/
theorem claim_C7_timeout_exhausts_budget_witness :
    ((geminiGenerateText true (fun _ => .timeout) 3).result =
        .error (.timeoutError "Gemini API request timed out") ∧
      (geminiGenerateText true (fun _ => .timeout) 3).attempts = 3 ∧
      (geminiGenerateText true (fun _ => .timeout) 3).sleeps =
        (List.range (3 - 1)).map (fun k => 2 ^ k)) ∧
    ((∃ m, (ollamaGenerateText true (fun _ => .asyncTimeout) 3).result =
        .error (.timeoutError m)) ∧
      (ollamaGenerateText true (fun _ => .asyncTimeout) 3).attempts = 3 ∧
      (ollamaGenerateText true (fun _ => .asyncTimeout) 3).sleeps =
        (List.range (3 - 1)).map (fun k => 2 ^ k)) :=
  claim_C7_timeout_exhausts_budget 3 (fun _ => .timeout) (fun _ => .asyncTimeout)
    (by omega) (fun _ => rfl) (fun _ => Or.inl rfl)

theorem geminiTextAux_nonretryable (backend : Nat → GenAttempt) (maxRetries : Nat)
    (j : Nat) (e : PyExc)
    (hj : backend j = .exc e) (hnr : isRetryableMsg geminiTextKeywords e.msg = false) :
    ∀ fuel attempt, fuel + attempt = maxRetries → attempt ≤ j → j < maxRetries →
      (∀ i, attempt ≤ i → i < j → backend i = .timeout ∨
        ∃ e', backend i = .exc e' ∧ isRetryableMsg geminiTextKeywords e'.msg = true) →
      geminiTextAux backend maxRetries attempt fuel =
        ⟨.error e, j + 1 - attempt, (List.range' attempt (j - attempt)).map (fun k => 2 ^ k)⟩ := by
  intro fuel
  induction fuel with
  | zero => intro attempt h haj hjm _; omega
  | succ f ih =>
    intro attempt h haj hjm hpre
    by_cases hja : attempt = j
    · subst hja
      rw [geminiTextAux]
      simp only [hj, hnr, Bool.false_eq_true, if_false]
      have h1 : attempt + 1 - attempt = 1 := by omega
      have h2 : attempt - attempt = 0 := by omega
      rw [h1, h2]
      rfl
    · have hlt : attempt < j := by omega
      have hlast : ¬ attempt = maxRetries - 1 := by omega
      have hrec := ih (attempt + 1) (by omega) (by omega) hjm
        (fun i hi1 hi2 => hpre i (by omega) hi2)
      have hrange : j - attempt = (j - (attempt + 1)) + 1 := by omega
      rcases hpre attempt (le_refl attempt) hlt with hstep | ⟨e', hstep, hr⟩
      · rw [geminiTextAux]
        simp only [hstep]
        rw [if_neg hlast, hrec]
        simp only [hrange, List.range'_succ, List.map_cons]
        exact congrArg₂ _ (by omega) rfl
      · rw [geminiTextAux]
        simp only [hstep, hr, if_true]
        rw [if_neg hlast, hrec]
        simp only [hrange, List.range'_succ, List.map_cons]
        exact congrArg₂ _ (by omega) rfl

theorem geminiImageAux_nonretryable (backend : Nat → GenAttempt) (maxRetries : Nat)
    (j : Nat) (e : PyExc)
    (hj : backend j = .exc e) (hnr : isRetryableMsg geminiImageKeywords e.msg = false) :
    ∀ fuel attempt, fuel + attempt = maxRetries → attempt ≤ j → j < maxRetries →
      (∀ i, attempt ≤ i → i < j → backend i = .timeout ∨
        ∃ e', backend i = .exc e' ∧ isRetryableMsg geminiImageKeywords e'.msg = true) →
      geminiImageAux backend maxRetries attempt fuel =
        ⟨.error e, j + 1 - attempt, (List.range' attempt (j - attempt)).map (fun k => 2 ^ k)⟩ := by
  intro fuel
  induction fuel with
  | zero => intro attempt h haj hjm _; omega
  | succ f ih =>
    intro attempt h haj hjm hpre
    by_cases hja : attempt = j
    · subst hja
      rw [geminiImageAux]
      simp only [hj, hnr, Bool.false_eq_true, if_false]
      have h1 : attempt + 1 - attempt = 1 := by omega
      have h2 : attempt - attempt = 0 := by omega
      rw [h1, h2]
      rfl
    · have hlt : attempt < j := by omega
      have hlast : ¬ attempt = maxRetries - 1 := by omega
      have hrec := ih (attempt + 1) (by omega) (by omega) hjm
        (fun i hi1 hi2 => hpre i (by omega) hi2)
      have hrange : j - attempt = (j - (attempt + 1)) + 1 := by omega
      rcases hpre attempt (le_refl attempt) hlt with hstep | ⟨e', hstep, hr⟩
      · rw [geminiImageAux]
        simp only [hstep]
        rw [if_neg hlast, hrec]
        simp only [hrange, List.range'_succ, List.map_cons]
        exact congrArg₂ _ (by omega) rfl
      · rw [geminiImageAux]
        simp only [hstep, hr, if_true]
        rw [if_neg hlast, hrec]
        simp only [hrange, List.range'_succ, List.map_cons]
        exact congrArg₂ _ (by omega) rfl

theorem ollamaImageAux_nonretryable (connCheck : Nat → Bool)
    (backend : Nat → OllamaImageAttempt) (maxRetries : Nat) (j : Nat) (e : PyExc)
    (hj : ollamaImageBody connCheck backend j = .raised e)
    (hnr : isRetryableMsg ollamaImageKeywords e.msg = false) :
    ∀ fuel attempt, fuel + attempt = maxRetries → attempt ≤ j → j < maxRetries →
      (∀ i, attempt ≤ i → i < j → ollamaImageBody connCheck backend i = .timeoutO ∨
        ∃ e', ollamaImageBody connCheck backend i = .raised e' ∧
          isRetryableMsg ollamaImageKeywords e'.msg = true) →
      ollamaImageAux connCheck backend maxRetries attempt fuel =
        ⟨.error e, j + 1 - attempt, (List.range' attempt (j - attempt)).map (fun k => 2 ^ k)⟩ := by
  intro fuel
  induction fuel with
  | zero => intro attempt h haj hjm _; omega
  | succ f ih =>
    intro attempt h haj hjm hpre
    by_cases hja : attempt = j
    · subst hja
      rw [ollamaImageAux]
      simp only [hj, hnr, Bool.false_eq_true, if_false]
      have h1 : attempt + 1 - attempt = 1 := by omega
      have h2 : attempt - attempt = 0 := by omega
      rw [h1, h2]
      rfl
    · have hlt : attempt < j := by omega
      have hlast : ¬ attempt = maxRetries - 1 := by omega
      have hrec := ih (attempt + 1) (by omega) (by omega) hjm
        (fun i hi1 hi2 => hpre i (by omega) hi2)
      have hrange : j - attempt = (j - (attempt + 1)) + 1 := by omega
      rcases hpre attempt (le_refl attempt) hlt with hstep | ⟨e', hstep, hr⟩
      · rw [ollamaImageAux]
        simp only [hstep]
        rw [if_neg hlast, hrec]
        simp only [hrange, List.range'_succ, List.map_cons]
        exact congrArg₂ _ (by omega) rfl
      · rw [ollamaImageAux]
        simp only [hstep, hr, if_true]
        rw [if_neg hlast, hrec]
        simp only [hrange, List.range'_succ, List.map_cons]
        exact congrArg₂ _ (by omega) rfl

/-- C1 (amended): for `GeminiService.generate_text`,
`GeminiService.generate_with_image` and `OllamaService.generate_with_image`,
a failure whose message carries none of the network/availability keywords is
not retried: it propagates to the caller on the attempt in which it occurs
(after `j` earlier retryable failures: `j+1` attempts total and only the `j`
backoff sleeps that preceded it).  `OllamaService.generate_text` is excluded:
it retries every failure class, HTTP status errors and generic exceptions
included (see the counterexample). -/
theorem claim_C1_amended_nonretryable_propagates (maxRetries j : Nat) (e : PyExc)
    (gBackend giBackend : Nat → GenAttempt) (connCheck : Nat → Bool)
    (oiBackend : Nat → OllamaImageAttempt)
    (hjm : j < maxRetries)
    (hgj : gBackend j = .exc e)
    (hgnr : isRetryableMsg geminiTextKeywords e.msg = false)
    (hgpre : ∀ i, i < j → gBackend i = .timeout ∨
      ∃ e', gBackend i = .exc e' ∧ isRetryableMsg geminiTextKeywords e'.msg = true)
    (hgij : giBackend j = .exc e)
    (hginr : isRetryableMsg geminiImageKeywords e.msg = false)
    (hgipre : ∀ i, i < j → giBackend i = .timeout ∨
      ∃ e', giBackend i = .exc e' ∧ isRetryableMsg geminiImageKeywords e'.msg = true)
    (hoij : ollamaImageBody connCheck oiBackend j = .raised e)
    (hoinr : isRetryableMsg ollamaImageKeywords e.msg = false)
    (hoipre : ∀ i, i < j → ollamaImageBody connCheck oiBackend i = .timeoutO ∨
      ∃ e', ollamaImageBody connCheck oiBackend i = .raised e' ∧
        isRetryableMsg ollamaImageKeywords e'.msg = true) :
    geminiGenerateText true gBackend maxRetries =
      ⟨.error e, j + 1, (List.range j).map (fun k => 2 ^ k)⟩ ∧
    geminiGenerateWithImage true giBackend maxRetries =
      ⟨.error e, j + 1, (List.range j).map (fun k => 2 ^ k)⟩ ∧
    ollamaGenerateWithImage true connCheck oiBackend maxRetries =
      ⟨.error e, j + 1, (List.range j).map (fun k => 2 ^ k)⟩ := by
  refine ⟨?_, ?_, ?_⟩
  · rw [show geminiGenerateText true gBackend maxRetries =
        geminiTextAux gBackend maxRetries 0 maxRetries from rfl]
    rw [geminiTextAux_nonretryable gBackend maxRetries j e hgj hgnr maxRetries 0 (by omega)
      (by omega) hjm (fun i _ hi => hgpre i hi)]
    rw [List.range_eq_range']
    rfl
  · rw [show geminiGenerateWithImage true giBackend maxRetries =
        geminiImageAux giBackend maxRetries 0 maxRetries from rfl]
    rw [geminiImageAux_nonretryable giBackend maxRetries j e hgij hginr maxRetries 0 (by omega)
      (by omega) hjm (fun i _ hi => hgipre i hi)]
    rw [List.range_eq_range']
    rfl
  · rw [show ollamaGenerateWithImage true connCheck oiBackend maxRetries =
        ollamaImageAux connCheck oiBackend maxRetries 0 maxRetries from rfl]
    rw [ollamaImageAux_nonretryable connCheck oiBackend maxRetries j e hoij hoinr maxRetries 0
      (by omega) (by omega) hjm (fun i _ hi => hoipre i hi)]
    rw [List.range_eq_range']
    rfl

/-- Witness for C1's amended theorem: an authentication-style failure on
attempt 1 (after one retryable timeout) propagates at once with exactly one
prior backoff sleep, for all three conforming generation calls. -/
theorem claim_C1_amended_nonretryable_propagates_witness :
    geminiGenerateText true
        (fun i => if i = 0 then .timeout
          else .exc (.otherError "PermissionDenied" "403 API key not valid")) 3 =
      ⟨.error (.otherError "PermissionDenied" "403 API key not valid"), 1 + 1,
        (List.range 1).map (fun k => 2 ^ k)⟩ ∧
    geminiGenerateWithImage true
        (fun i => if i = 0 then .timeout
          else .exc (.otherError "PermissionDenied" "403 API key not valid")) 3 =
      ⟨.error (.otherError "PermissionDenied" "403 API key not valid"), 1 + 1,
        (List.range 1).map (fun k => 2 ^ k)⟩ ∧
    ollamaGenerateWithImage true (fun _ => true)
        (fun i => if i = 0 then .asyncTimeout
          else .exc (.otherError "PermissionDenied" "403 API key not valid")) 3 =
      ⟨.error (.otherError "PermissionDenied" "403 API key not valid"), 1 + 1,
        (List.range 1).map (fun k => 2 ^ k)⟩ :=
  claim_C1_amended_nonretryable_propagates 3 1
    (.otherError "PermissionDenied" "403 API key not valid")
    (fun i => if i = 0 then .timeout
      else .exc (.otherError "PermissionDenied" "403 API key not valid"))
    (fun i => if i = 0 then .timeout
      else .exc (.otherError "PermissionDenied" "403 API key not valid"))
    (fun _ => true)
    (fun i => if i = 0 then .asyncTimeout
      else .exc (.otherError "PermissionDenied" "403 API key not valid"))
    (by omega) rfl (by decide)
    (fun i hi => by interval_cases i; exact Or.inl rfl)
    rfl (by decide)
    (fun i hi => by interval_cases i; exact Or.inl rfl)
    rfl (by decide)
    (fun i hi => by interval_cases i; exact Or.inl rfl)

/-- C1 counterexample: `OllamaService.generate_text` against a backend that
answers HTTP 400 (a semantic, non-5xx error) on every attempt, with the
configured default budget of 2 attempts: the failure is retried — a second
attempt is made after a backoff sleep of 1 — before being re-raised as a
`ValueError`, contradicting the claim that such a failure propagates on the
attempt in which it occurs with no further attempt or sleep. -/
theorem claim_C1_counterexample :
    (ollamaGenerateText true (fun _ => .httpStatusError 400 "bad request") 2).attempts = 2 ∧
    (ollamaGenerateText true (fun _ => .httpStatusError 400 "bad request") 2).sleeps = [1] ∧
    (ollamaGenerateText true (fun _ => .httpStatusError 400 "bad request") 2).result =
      .error (.valueError "Ollama API returned error: HTTP 400") :=
  ⟨rfl, rfl, rfl⟩

theorem processAll_admits (perHour : Nat) (clientId : String) (now : Int)
    (hph : 60 ≤ perHour) :
    ∀ ts pre, pre.length + ts.length ≤ 60 →
      (∀ t ∈ pre, t ≤ now ∧ now - t < 60) →
      (∀ t ∈ ts, t ≤ now ∧ now - t < 60) →
      processAll 60 perHour (fun c => if c = clientId then pre else []) clientId ts =
        (true, fun c => if c = clientId then pre ++ ts else []) := by
  intro ts
  induction ts with
  | nil =>
    intro pre _ _ _
    rw [processAll]
    simp
  | cons t ts ih =>
    intro pre hlen hpre hts
    have ht := hts t (List.mem_cons_self t ts)
    have hstep : dispatchMemory 60 perHour (fun c => if c = clientId then pre else [])
        clientId t = (true, fun c => if c = clientId then pre ++ [t] else []) := by
      have hfilter3600 : pre.filter (fun reqTime => decide (t - reqTime < 3600)) = pre := by
        rw [List.filter_eq_self]
        intro a ha
        have hp := hpre a ha
        simp only [decide_eq_true_eq]
        omega
      have hchk : isRateLimitedMemory 60 perHour (fun c => if c = clientId then pre else [])
          clientId t = (false, fun c => if c = clientId then pre else []) := by
        unfold isRateLimitedMemory
        simp only []
        simp only [if_true]
        rw [hfilter3600]
        rw [if_neg (by
          have := List.length_filter_le (fun reqTime => decide (t - reqTime < 60)) pre
          simp only [List.length_cons] at hlen
          omega)]
        rw [if_neg (by simp only [List.length_cons] at hlen; omega)]
        refine congrArg _ (funext fun c => ?_)
        by_cases hc : c = clientId <;> simp [hc]
      unfold dispatchMemory
      rw [hchk]
      simp only [if_neg (by simp : ¬ (false = true))]
      refine congrArg _ ?_
      unfold recordRequestMemory
      funext c
      by_cases hc : c = clientId <;> simp [hc]
    rw [processAll, hstep]
    rw [ih (pre ++ [t])
      (by simp only [List.length_append, List.length_cons, List.length_nil] at hlen ⊢; omega)
      (by
        intro a ha
        rcases List.mem_append.mp ha with ha | ha
        · exact hpre a ha
        · simp only [List.mem_singleton] at ha
          subst ha
          exact ht)
      (fun a ha => hts a (List.mem_cons_of_mem t ha))]
    simp

/-- C5: with the per-minute threshold 60 and the in-memory backend, starting
from an empty log: 60 requests from one client identity, all within one
minute of the final check instant, are each admitted and recorded; the 61st
admission check for that identity within the same minute is rejected (the
429 disposition), while an admission check for a different identity at the
same instant is still allowed. -/
theorem claim_C5_sixty_then_reject (perHour : Nat) (times : List Int) (now : Int)
    (clientId other : String)
    (hlen : times.length = 60) (hph : 60 ≤ perHour)
    (hwin : ∀ t ∈ times, t ≤ now ∧ now - t < 60)
    (hother : other ≠ clientId) :
    (processAll 60 perHour (fun _ => []) clientId times).1 = true ∧
    (isRateLimitedMemory 60 perHour (processAll 60 perHour (fun _ => []) clientId times).2
      clientId now).1 = true ∧
    (isRateLimitedMemory 60 perHour (processAll 60 perHour (fun _ => []) clientId times).2
      other now).1 = false := by
  have hinit : (fun _ => ([] : List Int)) = (fun c => if c = clientId then [] else []) :=
    funext fun c => by split <;> rfl
  rw [hinit, processAll_admits perHour clientId now hph times []
    (by simp only [List.length_nil, hlen]; omega) (by intro t ht; cases ht) hwin]
  refine ⟨rfl, ?_, ?_⟩
  · unfold isRateLimitedMemory
    simp only []
    simp only [if_true, List.nil_append]
    have hfilter3600 : times.filter (fun reqTime => decide (now - reqTime < 3600)) = times := by
      rw [List.filter_eq_self]
      intro a ha
      have := hwin a ha
      simp only [decide_eq_true_eq]
      omega
    have hfilter60 : times.filter (fun reqTime => decide (now - reqTime < 60)) = times := by
      rw [List.filter_eq_self]
      intro a ha
      have := hwin a ha
      simp only [decide_eq_true_eq]
      omega
    rw [hfilter3600, hfilter60]
    rw [if_pos (by omega)]
  · unfold isRateLimitedMemory
    simp only []
    rw [if_neg hother]
    simp only [List.filter_nil, List.length_nil]
    rw [if_neg (by omega), if_neg (by omega)]

/-- Witness for C5: 60 requests at seconds 0..59 from one IP, checked at
second 59, with the default hourly threshold of 1000. -/
theorem claim_C5_sixty_then_reject_witness :
    (processAll 60 1000 (fun _ => []) "ip:203.0.113.7"
      ((List.range 60).map (fun i => (i : Int)))).1 = true ∧
    (isRateLimitedMemory 60 1000 (processAll 60 1000 (fun _ => []) "ip:203.0.113.7"
      ((List.range 60).map (fun i => (i : Int)))).2 "ip:203.0.113.7" 59).1 = true ∧
    (isRateLimitedMemory 60 1000 (processAll 60 1000 (fun _ => []) "ip:203.0.113.7"
      ((List.range 60).map (fun i => (i : Int)))).2 "ip:198.51.100.9" 59).1 = false :=
  claim_C5_sixty_then_reject 1000 ((List.range 60).map (fun i => (i : Int))) 59
    "ip:203.0.113.7" "ip:198.51.100.9" (by decide) (by omega)
    (by decide) (by decide)

theorem sortStrings_perm_congr (l₁ l₂ : List String) (h : l₁.Perm l₂) :
    sortStrings l₁ = sortStrings l₂ := by
  refine List.eq_of_perm_of_sorted (r := (· ≤ · : String → String → Prop)) ?_ ?_ ?_
  · exact ((List.mergeSort_perm l₁ _).trans h).trans (List.mergeSort_perm l₂ _).symm
  · exact List.sorted_mergeSort' l₁
  · exact List.sorted_mergeSort' l₂

theorem keyPartOfArg_congr (v w : PyVal) (h : argEquiv v w) :
    keyPartOfArg v = keyPartOfArg w := by
  cases v <;> cases w <;> simp only [argEquiv] at h
  case pstr.pstr => rw [h]
  case pint.pint => rw [h]
  case pbool.pbool => rw [h]
  case pother.pother => rw [h]
  case plist.plist xs ys =>
    simp only [keyPartOfArg]
    rw [sortStrings_perm_congr _ _ (h.map pyStr)]

theorem keyPartOfKwarg_render (p : String × PyVal) :
    keyPartOfKwarg p.1 p.2 = p.1 ++ ":" ++ keyPartOfArg p.2 := by
  obtain ⟨k, v⟩ := p
  cases v <;> rfl

theorem sortKwargs_perm (kw : List (String × PyVal)) : (sortKwargs kw).Perm kw :=
  List.mergeSort_perm kw _

theorem sortKwargs_pairwise (kw : List (String × PyVal)) :
    (sortKwargs kw).Pairwise (fun p q => p.1 ≤ q.1) := by
  have h := @List.sorted_mergeSort (String × PyVal)
    (fun p q => decide (p.1 ≤ q.1))
    (fun a b c hab hbc => by
      simp only [decide_eq_true_eq] at hab hbc ⊢
      exact le_trans hab hbc)
    (fun a b => by
      simp only [Bool.or_eq_true, decide_eq_true_eq]
      exact le_total a.1 b.1)
    kw
  exact h.imp (fun hab => by simpa using hab)

theorem sorted_pairs_unique (l₁ l₂ : List (String × String)) (hp : l₁.Perm l₂)
    (h₁ : l₁.Pairwise (fun p q => p.1 < q.1)) (h₂ : l₂.Pairwise (fun p q => p.1 < q.1)) :
    l₁ = l₂ := by
  haveI : IsAntisymm (String × String) (fun p q => p.1 < q.1) :=
    ⟨fun a b hab hba => absurd (lt_trans hab hba) (lt_irrefl _)⟩
  exact List.eq_of_perm_of_sorted hp h₁ h₂

theorem forall₂_kwargEquiv_map_keyed (kw mid : List (String × PyVal))
    (hkw : List.Forall₂ kwargEquiv kw mid) : kw.map kwKeyed = mid.map kwKeyed := by
  induction hkw with
  | nil => rfl
  | cons hab hrest ih =>
    obtain ⟨h1, h2⟩ := hab
    simp only [List.map_cons, ih]
    congr 1
    unfold kwKeyed
    rw [h1, keyPartOfArg_congr _ _ h2]

theorem forall₂_kwargEquiv_map_fst (kw mid : List (String × PyVal))
    (hkw : List.Forall₂ kwargEquiv kw mid) : kw.map Prod.fst = mid.map Prod.fst := by
  induction hkw with
  | nil => rfl
  | cons hab hrest ih =>
    obtain ⟨h1, -⟩ := hab
    simp only [List.map_cons, ih, h1]

theorem sortKwargs_keyed_pairwise_lt (kw : List (String × PyVal))
    (hnodup : (kw.map Prod.fst).Nodup) :
    ((sortKwargs kw).map kwKeyed).Pairwise (fun p q : String × String => p.1 < q.1) := by
  have hle := sortKwargs_pairwise kw
  have hnodup' : ((sortKwargs kw).map Prod.fst).Nodup :=
    (((sortKwargs_perm kw).map Prod.fst).nodup_iff).mpr hnodup
  have hne : (sortKwargs kw).Pairwise (fun p q => p.1 ≠ q.1) :=
    (List.pairwise_map).mp hnodup'
  have hlt : (sortKwargs kw).Pairwise (fun p q => p.1 < q.1) :=
    (hle.and hne).imp (fun hab => lt_of_le_of_ne hab.1 hab.2)
  exact (List.pairwise_map).mpr hlt

theorem kwRendered_eq (kw mid kw' : List (String × PyVal))
    (hkw : List.Forall₂ kwargEquiv kw mid) (hperm : mid.Perm kw')
    (hnodup : (kw.map Prod.fst).Nodup) :
    (sortKwargs kw).map kwKeyed = (sortKwargs kw').map kwKeyed := by
  have hmapeq := forall₂_kwargEquiv_map_keyed kw mid hkw
  have hpermKeyed : ((sortKwargs kw).map kwKeyed).Perm ((sortKwargs kw').map kwKeyed) := by
    have p1 := (sortKwargs_perm kw).map kwKeyed
    have p2 := (sortKwargs_perm kw').map kwKeyed
    have p3 : (kw.map kwKeyed).Perm (kw'.map kwKeyed) := by
      rw [hmapeq]
      exact hperm.map kwKeyed
    exact (p1.trans p3).trans p2.symm
  have hnodupKw' : (kw'.map Prod.fst).Nodup := by
    have hfst := forall₂_kwargEquiv_map_fst kw mid hkw
    have : (mid.map Prod.fst).Perm (kw'.map Prod.fst) := hperm.map Prod.fst
    exact (this.nodup_iff).mp (hfst ▸ hnodup)
  exact sorted_pairs_unique _ _ hpermKeyed
    (sortKwargs_keyed_pairwise_lt kw hnodup)
    (sortKwargs_keyed_pairwise_lt kw' hnodupKw')

theorem kwRender_via_keyed (l : List (String × PyVal)) :
    l.map (fun p => keyPartOfKwarg p.1 p.2) =
      (l.map kwKeyed).map (fun q => q.1 ++ ":" ++ q.2) := by
  rw [List.map_map]
  exact List.map_congr_left (fun p _ => keyPartOfKwarg_render p)

/-- C6: `generate_key` is order-independent: for every namespace, two calls
with equivalent scalar positional arguments, the same multiset of elements in
each list-valued argument, and the same set of keyword arguments (up to
keyword insertion order and list element order; keyword names are distinct,
as in a Python `dict`) return the identical key string. -/
theorem claim_C6_generate_key_order_independent (ns : String)
    (args args' : List PyVal) (kw mid kw' : List (String × PyVal))
    (hargs : List.Forall₂ argEquiv args args')
    (hkw : List.Forall₂ kwargEquiv kw mid) (hperm : mid.Perm kw')
    (hnodup : (kw.map Prod.fst).Nodup) :
    generate_key ns args kw = generate_key ns args' kw' := by
  suffices h : rawCacheKey ns args kw = rawCacheKey ns args' kw' by
    unfold generate_key
    rw [h]
  unfold rawCacheKey
  have hargsmap : args.map keyPartOfArg = args'.map keyPartOfArg := by
    induction hargs with
    | nil => rfl
    | cons hab hrest ih =>
      simp only [List.map_cons, ih]
      rw [keyPartOfArg_congr _ _ hab]
  have hempty : kw.isEmpty = kw'.isEmpty := by
    have l1 := hkw.length_eq
    have l2 := hperm.length_eq
    cases kw <;> cases kw' <;> simp_all
  have hrender : (sortKwargs kw).map (fun p => keyPartOfKwarg p.1 p.2) =
      (sortKwargs kw').map (fun p => keyPartOfKwarg p.1 p.2) := by
    rw [kwRender_via_keyed, kwRender_via_keyed, kwRendered_eq kw mid kw' hkw hperm hnodup]
  rw [hargsmap, hempty, hrender]

/-- Witness for C6 at the specification's own example:
`generate_key("p", tags=["a","b"]) == generate_key("p", tags=["b","a"])`. -/
theorem claim_C6_generate_key_order_independent_witness :
    generate_key "p" [] [("tags", .plist [.pstr "a", .pstr "b"])] =
      generate_key "p" [] [("tags", .plist [.pstr "b", .pstr "a"])] :=
  claim_C6_generate_key_order_independent "p" [] []
    [("tags", .plist [.pstr "a", .pstr "b"])]
    [("tags", .plist [.pstr "b", .pstr "a"])]
    [("tags", .plist [.pstr "b", .pstr "a"])]
    List.Forall₂.nil
    (List.Forall₂.cons
      ⟨rfl, show List.Perm [PyVal.pstr "a", PyVal.pstr "b"] [PyVal.pstr "b", PyVal.pstr "a"] from
        List.Perm.swap (PyVal.pstr "b") (PyVal.pstr "a") []⟩
      List.Forall₂.nil)
    (List.Perm.refl _)
    (by simp)
